import Mathlib

/-!
# A verification development of the jawk parser

A shallow embedding, in Lean 4, of the parsing stage of the jawk AWK
implementation (`src/parser/mod.rs` and `src/parser/types.rs`), together
with theorems settling the frozen claims about that stage.

The parser is a recursive-descent parser over a finite token stream with a
cursor.  Here every parser routine is a function
`Nat → List Token → Nat → Except ParseErr (α × Nat)`: the `Nat` is a fuel
argument (the Rust code recurses without fuel; fuel is the standard
embedding artifact that makes the mutual recursion structural), the
`List Token` is the token stream (never modified), the second `Nat` is the
cursor, and the result pairs the parsed value with the new cursor.  A Rust
`panic!` — the parser's only failure mode — is an `Except.error` carrying a
`ParseErr` that records exactly the data the panic message interpolates.
-/

namespace Jawk

/-! ## The lexer's interface types

The lexer lives in `src/lexer` which is not part of the parser sources;
the shapes below are modelled from the spec (§3, "Token") and from the
constructors and token kinds the parser itself names.
-/

/-- Modelled from the spec: the lexer's arithmetic-operator tag `MathOp`
(`+`, `-`, `*`, `/`, `%`, `^`), as named by the parser. -/
inductive MathOp where
  | Minus
  | Plus
  | Slash
  | Star
  | Modulus
  | Exponent
deriving Repr, DecidableEq

/-- Modelled from the spec: the lexer's comparison-operator tag `BinOp`
(`<`, `<=`, `>`, `>=`, `!=`, `==`), as named by the parser. -/
inductive BinOp where
  | Greater
  | GreaterEq
  | Less
  | LessEq
  | BangEq
  | EqEq
deriving Repr, DecidableEq

/-- Modelled from the spec: the lexer's logical-operator tag (`&&`, `||`). -/
inductive LogicalOp where
  | And
  | Or
deriving Repr, DecidableEq

/-- Modelled from the spec: the lexer's token-kind enumeration `TokenType`,
one kind per token kind the parser tests for.  The f64 literal payload of a
number token is embedded as `ℚ`; the parser never computes with it, it only
copies it and manufactures the literal `1.0`. -/
inductive TokenType where
  | NumberF64
  | String
  | Ident
  | LeftParen
  | RightParen
  | LeftBrace
  | RightBrace
  | Semicolon
  | Eq
  | InplaceAssign
  | Less
  | LessEq
  | Greater
  | GreaterEq
  | EqEq
  | BangEq
  | Plus
  | Minus
  | Star
  | Slash
  | Modulo
  | Exponent
  | And
  | Or
  | Column
  | Begin
  | End
  | Print
  | If
  | Else
  | While
  | For
  | EOF
deriving Repr, DecidableEq

/-- Modelled from the spec: the lexer's `Token` tagged union (§3), with one
constructor per payload-carrying shape the parser destructures
(`NumberF64`, `String`, `Ident`, `BinOp`, `MathOp`, `InplaceEq`) and one
per bare punctuation/keyword token. -/
inductive Token where
  | NumberF64 (n : ℚ)
  | String (s : String)
  | Ident (s : String)
  | BinOp (op : BinOp)
  | MathOp (op : MathOp)
  | InplaceEq (op : MathOp)
  | LeftParen
  | RightParen
  | LeftBrace
  | RightBrace
  | Semicolon
  | Eq
  | And
  | Or
  | Column
  | Begin
  | End
  | Print
  | If
  | Else
  | While
  | For
  | EOF
deriving Repr, DecidableEq

/-- Modelled from the spec: `Token::ttype()`, the kind of a token. -/
def Token.ttype : Token → TokenType
  | .NumberF64 _ => .NumberF64
  | .String _ => .String
  | .Ident _ => .Ident
  | .BinOp .Less => .Less
  | .BinOp .LessEq => .LessEq
  | .BinOp .Greater => .Greater
  | .BinOp .GreaterEq => .GreaterEq
  | .BinOp .BangEq => .BangEq
  | .BinOp .EqEq => .EqEq
  | .MathOp .Plus => .Plus
  | .MathOp .Minus => .Minus
  | .MathOp .Star => .Star
  | .MathOp .Slash => .Slash
  | .MathOp .Modulus => .Modulo
  | .MathOp .Exponent => .Exponent
  | .InplaceEq _ => .InplaceAssign
  | .LeftParen => .LeftParen
  | .RightParen => .RightParen
  | .LeftBrace => .LeftBrace
  | .RightBrace => .RightBrace
  | .Semicolon => .Semicolon
  | .Eq => .Eq
  | .And => .And
  | .Or => .Or
  | .Column => .Column
  | .Begin => .Begin
  | .End => .End
  | .Print => .Print
  | .If => .If
  | .Else => .Else
  | .While => .While
  | .For => .For
  | .EOF => .EOF

/-! ## The AST model (`src/parser/types.rs`) -/

/-- `AwkT`: the provisional type tag on every expression node. -/
inductive AwkT where
  | String
  | Float
  | Variable
deriving Repr, DecidableEq

mutual
/-- `Expr` of `types.rs`: the expression variant set. -/
inductive Expr where
  | Assign (name : String) (value : TypedExpr)
  | NumberF64 (n : ℚ)
  | String (s : String)
  | Concatenation (vals : List TypedExpr)
  | BinOp (left : TypedExpr) (op : BinOp) (right : TypedExpr)
  | MathOp (left : TypedExpr) (op : MathOp) (right : TypedExpr)
  | LogicalOp (left : TypedExpr) (op : LogicalOp) (right : TypedExpr)
  | Variable (name : String)
  | Column (e : TypedExpr)
  | Call
deriving Repr

/-- `TypedExpr` of `types.rs`: an `Expr` paired with its provisional type. -/
inductive TypedExpr where
  | mk (typ : AwkT) (expr : Expr)
deriving Repr
end

/-- The `typ` field of a `TypedExpr`. -/
def TypedExpr.typ : TypedExpr → AwkT
  | .mk t _ => t

/-- The `expr` field of a `TypedExpr`. -/
def TypedExpr.expr : TypedExpr → Expr
  | .mk _ e => e

/-- `TypedExpr::new_num`. -/
def TypedExpr.new_num (e : Expr) : TypedExpr := .mk .Float e

/-- `TypedExpr::new_str`. -/
def TypedExpr.new_str (e : Expr) : TypedExpr := .mk .String e

/-- `TypedExpr::new_var` — also `impl Into<TypedExpr> for Expr`,
which the parser writes as `.into()`. -/
def TypedExpr.new_var (e : Expr) : TypedExpr := .mk .Variable e

/-- `Stmt` of `types.rs`. -/
inductive Stmt where
  | Expr (e : TypedExpr)
  | Print (e : TypedExpr)
  | Group (stmts : List Stmt)
  | If (test : TypedExpr) (if_so : Stmt) (if_not : Option Stmt)
  | While (test : TypedExpr) (body : Stmt)
deriving Repr

/-- `PatternAction` of `types.rs`. -/
structure PatternAction where
  pattern : Option TypedExpr
  action : Stmt
deriving Repr

/-- `PatternAction::new`. -/
def PatternAction.new (pattern : Option TypedExpr) (action : Stmt) : PatternAction :=
  ⟨pattern, action⟩

/-- `PatternAction::new_pattern_only`: a pattern-only rule's action prints
the whole record, `print $0`, with the string type tag on the print
expression and the float tag on the literal `0.0`. -/
def PatternAction.new_pattern_only (test : TypedExpr) : PatternAction :=
  PatternAction.new (some test)
    (Stmt.Print (TypedExpr.new_str (.Column (TypedExpr.new_num (.NumberF64 0)))))

/-- `PatternAction::new_action_only`. -/
def PatternAction.new_action_only (body : Stmt) : PatternAction :=
  PatternAction.new none body

/-- `Program` of `types.rs`. -/
structure Program where
  begins : List Stmt
  ends : List Stmt
  pattern_actions : List PatternAction
deriving Repr

/-- `Program::new`. -/
def Program.new (begins ends : List Stmt) (pattern_actions : List PatternAction) : Program :=
  ⟨begins, ends, pattern_actions⟩

/-- `PAType` of `mod.rs`: what one top-level unit parses to. -/
inductive PAType where
  | Normal (pa : PatternAction)
  | Begin (s : Stmt)
  | End (s : Stmt)
deriving Repr

/-! ## Failure

Every abort of the Rust parser is a `panic!`.  Each constructor below is
one panic site (or family of sites) and carries exactly the data that the
panic's format string interpolates.  `oob` stands for the panic of an
out-of-bounds `self.tokens[i]` index, `unwrapNone` for `.unwrap()` on
`None`, and `outOfFuel` is the embedding artifact. -/
inductive ParseErr where
  | consumeFail (message : String) (expected : TokenType) (foundType : TokenType) (found : Token)
  | primaryAtEnd
  | unexpectedToken (t : Token) (ttype : TokenType)
  | expectedIdent
  | parserBug (message : String)
  | oob
  | unwrapNone
  | outOfFuel
deriving Repr, DecidableEq

/-! ## Cursor primitives (`impl Parser`)

The parser struct holds `tokens` and `current`; here the two are passed
explicitly, and a routine that moves the cursor returns the new cursor. -/

/-- `Parser::peek`: `self.tokens[self.current]` (a panic when out of bounds). -/
def peek (ts : List Token) (pos : Nat) : Except ParseErr Token :=
  match ts[pos]? with
  | some t => .ok t
  | none => .error .oob

/-- `Parser::peek_next`: `self.tokens[self.current + 1]`. -/
def peek_next (ts : List Token) (pos : Nat) : Except ParseErr Token :=
  match ts[pos + 1]? with
  | some t => .ok t
  | none => .error .oob

/-- `Parser::previous().unwrap()`: `None` when the cursor is 0 (then the
`unwrap` panics), else token `current - 1`. -/
def previousTok (ts : List Token) (pos : Nat) : Except ParseErr Token :=
  if pos = 0 then .error .unwrapNone
  else
    match ts[pos - 1]? with
    | some t => .ok t
    | none => .error .oob

/-- `Parser::is_at_end`: the current token's kind is `EOF`. -/
def is_at_end (ts : List Token) (pos : Nat) : Except ParseErr Bool :=
  match peek ts pos with
  | .error e => .error e
  | .ok t => .ok (t.ttype = .EOF)

/-- `Parser::advance`: step the cursor unless at end, then return
`previous().unwrap()`. -/
def advance (ts : List Token) (pos : Nat) : Except ParseErr (Token × Nat) :=
  match is_at_end ts pos with
  | .error e => .error e
  | .ok atEnd =>
    let p := if atEnd then pos else pos + 1
    match previousTok ts p with
    | .error e => .error e
    | .ok t => .ok (t, p)

/-- `Parser::check`: false at end, else compare the current token's kind. -/
def check (typ : TokenType) (ts : List Token) (pos : Nat) : Except ParseErr Bool :=
  match is_at_end ts pos with
  | .error e => .error e
  | .ok atEnd =>
    if atEnd then .ok false
    else
      match peek ts pos with
      | .error e => .error e
      | .ok t => .ok (typ = t.ttype)

/-- `Parser::consume`: require a token kind; on success advance, otherwise
panic with the message, the expected kind, the found kind and the found
token. -/
def consume (typ : TokenType) (message : String) (ts : List Token) (pos : Nat) :
    Except ParseErr (Token × Nat) :=
  match check typ ts pos with
  | .error e => .error e
  | .ok true => advance ts pos
  | .ok false =>
    match peek ts pos with
    | .error e => .error e
    | .ok t => .error (.consumeFail message typ t.ttype t)

/-- `Parser::matches`: `tokens.get(current)` (no panic when out of bounds —
then `false`); on a kind in the expected list, advance and return true. -/
def matches' (expected : List TokenType) (ts : List Token) (pos : Nat) :
    Except ParseErr (Bool × Nat) :=
  match ts[pos]? with
  | none => .ok (false, pos)
  | some t =>
    if t.ttype ∈ expected then
      match advance ts pos with
      | .error e => .error e
      | .ok (_, p) => .ok (true, p)
    else .ok (false, pos)

/-- The `not_these` stop-set of `Parser::string_concat`, in source order. -/
def not_these : List TokenType :=
  [.InplaceAssign, .Less, .LessEq, .BangEq, .EqEq, .Greater, .GreaterEq,
   .And, .Or, .Eq, .Semicolon, .RightBrace, .RightParen, .LeftBrace]

/-- The wrapping loop of `Parser::column`: `num_cols` times,
`expr = new_var(Column(expr))`. -/
def wrap_columns : Nat → TypedExpr → TypedExpr
  | 0, e => e
  | n + 1, e => wrap_columns n (TypedExpr.new_var (.Column e))

/-! ## The parser engine (`impl Parser`, `mod.rs`)

One Lean function per Rust method; a Rust `while` loop over
`matches`/`peek` becomes a companion `*_loop` function carrying the loop's
accumulator.  All recursion is structural on the fuel. -/

set_option maxHeartbeats 3200000

mutual

/-- `Parser::expression`: `self.assignment().into()` (the `.into()` on a
`TypedExpr` is the identity). -/
def expression : Nat → List Token → Nat → Except ParseErr (TypedExpr × Nat)
  | 0, _, _ => .error .outOfFuel
  | fuel + 1, ts, pos => assignment fuel ts pos
  termination_by structural fuel => fuel

/-- `Parser::assignment`: parse the logical-or level; when the result is a
bare variable followed by `=`, an assignment of a recursively parsed
right-hand side; when followed by a compound-assign token, the
`var = var op rhs` rewrite; otherwise the left-hand side unchanged. -/
def assignment : Nat → List Token → Nat → Except ParseErr (TypedExpr × Nat)
  | 0, _, _ => .error .outOfFuel
  | fuel + 1, ts, pos =>
    match logical_or fuel ts pos with
    | .error e => .error e
    | .ok (lhs, p) =>
      match lhs.expr with
      | .Variable var =>
        (match matches' [.Eq] ts p with
         | .error e => .error e
         | .ok (true, p1) =>
           match assignment fuel ts p1 with
           | .error e => .error e
           | .ok (rhs, p2) => .ok (TypedExpr.new_var (.Assign var rhs), p2)
         | .ok (false, _) =>
           match matches' [.InplaceAssign] ts p with
           | .error e => .error e
           | .ok (true, p1) =>
             (match previousTok ts p1 with
              | .error e => .error e
              | .ok (.InplaceEq math_op) =>
                (match assignment fuel ts p1 with
                 | .error e => .error e
                 | .ok (rhs, p2) =>
                   .ok (TypedExpr.new_var (.Assign var
                     (TypedExpr.new_var
                       (.MathOp (TypedExpr.new_var (.Variable var)) math_op rhs))), p2))
              | .ok _ => .error (.parserBug "not possible"))
           | .ok (false, p1) => .ok (lhs, p1))
      | _ => .ok (lhs, p)
  termination_by structural fuel => fuel

/-- `Parser::logical_or`, entry: parse the logical-and level, then loop. -/
def logical_or : Nat → List Token → Nat → Except ParseErr (TypedExpr × Nat)
  | 0, _, _ => .error .outOfFuel
  | fuel + 1, ts, pos =>
    match logical_and fuel ts pos with
    | .error e => .error e
    | .ok (e, p) => logical_or_loop fuel ts p e
  termination_by structural fuel => fuel

/-- `Parser::logical_or`, the `while self.matches(vec![Or])` loop. -/
def logical_or_loop : Nat → List Token → Nat → TypedExpr → Except ParseErr (TypedExpr × Nat)
  | 0, _, _, _ => .error .outOfFuel
  | fuel + 1, ts, pos, expr =>
    match matches' [.Or] ts pos with
    | .error e => .error e
    | .ok (true, p) =>
      match logical_and fuel ts p with
      | .error e => .error e
      | .ok (r, p2) =>
        logical_or_loop fuel ts p2 (TypedExpr.new_var (.LogicalOp expr .Or r))
    | .ok (false, _) => .ok (expr, pos)
  termination_by structural fuel => fuel

/-- `Parser::logical_and`, entry: parse the comparison level, then loop. -/
def logical_and : Nat → List Token → Nat → Except ParseErr (TypedExpr × Nat)
  | 0, _, _ => .error .outOfFuel
  | fuel + 1, ts, pos =>
    match compare fuel ts pos with
    | .error e => .error e
    | .ok (e, p) => logical_and_loop fuel ts p e
  termination_by structural fuel => fuel

/-- `Parser::logical_and`, the `while self.matches(vec![And])` loop. -/
def logical_and_loop : Nat → List Token → Nat → TypedExpr → Except ParseErr (TypedExpr × Nat)
  | 0, _, _, _ => .error .outOfFuel
  | fuel + 1, ts, pos, expr =>
    match matches' [.And] ts pos with
    | .error e => .error e
    | .ok (true, p) =>
      match compare fuel ts p with
      | .error e => .error e
      | .ok (r, p2) =>
        logical_and_loop fuel ts p2 (TypedExpr.new_var (.LogicalOp expr .And r))
    | .ok (false, _) => .ok (expr, pos)
  termination_by structural fuel => fuel

/-- `Parser::compare`, entry: parse the string-concatenation level, then
loop over the six comparison operators. -/
def compare : Nat → List Token → Nat → Except ParseErr (TypedExpr × Nat)
  | 0, _, _ => .error .outOfFuel
  | fuel + 1, ts, pos =>
    match string_concat fuel ts pos with
    | .error e => .error e
    | .ok (e, p) => compare_loop fuel ts p e
  termination_by structural fuel => fuel

/-- `Parser::compare`, the loop: on a matched comparison operator, read the
operator back out of `previous()` (any other shape is the
"Parser bug in compare matches function" panic) and fold left. -/
def compare_loop : Nat → List Token → Nat → TypedExpr → Except ParseErr (TypedExpr × Nat)
  | 0, _, _, _ => .error .outOfFuel
  | fuel + 1, ts, pos, expr =>
    match matches' [.GreaterEq, .Greater, .Less, .LessEq, .EqEq, .BangEq] ts pos with
    | .error e => .error e
    | .ok (true, p) =>
      (match previousTok ts p with
       | .error e => .error e
       | .ok (.BinOp .Less) => compare_rhs fuel ts p expr .Less
       | .ok (.BinOp .LessEq) => compare_rhs fuel ts p expr .LessEq
       | .ok (.BinOp .Greater) => compare_rhs fuel ts p expr .Greater
       | .ok (.BinOp .GreaterEq) => compare_rhs fuel ts p expr .GreaterEq
       | .ok (.BinOp .BangEq) => compare_rhs fuel ts p expr .BangEq
       | .ok (.BinOp .EqEq) => compare_rhs fuel ts p expr .EqEq
       | .ok _ => .error (.parserBug "Parser bug in compare matches function"))
    | .ok (false, _) => .ok (expr, pos)
  termination_by structural fuel => fuel

/-- `Parser::compare`, body of one loop iteration after the operator is
known: `expr = BinOp(expr, op, string_concat()).into()`. -/
def compare_rhs : Nat → List Token → Nat → TypedExpr → BinOp → Except ParseErr (TypedExpr × Nat)
  | 0, _, _, _, _ => .error .outOfFuel
  | fuel + 1, ts, pos, expr, op =>
    match string_concat fuel ts pos with
    | .error e => .error e
    | .ok (r, p2) => compare_loop fuel ts p2 (TypedExpr.new_var (.BinOp expr op r))
  termination_by structural fuel => fuel

/-- `Parser::string_concat`, entry: parse the additive level, then loop. -/
def string_concat : Nat → List Token → Nat → Except ParseErr (TypedExpr × Nat)
  | 0, _, _ => .error .outOfFuel
  | fuel + 1, ts, pos =>
    match comparison fuel ts pos with
    | .error e => .error e
    | .ok (e, p) => string_concat_loop fuel ts p e
  termination_by structural fuel => fuel

/-- `Parser::string_concat`, the
`while !self.is_at_end() && !not_these.contains(..)` loop: append each
further additive operand into an existing `Concatenation`, or start one. -/
def string_concat_loop : Nat → List Token → Nat → TypedExpr → Except ParseErr (TypedExpr × Nat)
  | 0, _, _, _ => .error .outOfFuel
  | fuel + 1, ts, pos, expr =>
    match is_at_end ts pos with
    | .error e => .error e
    | .ok true => .ok (expr, pos)
    | .ok false =>
      match peek ts pos with
      | .error e => .error e
      | .ok t =>
        if t.ttype ∈ not_these then .ok (expr, pos)
        else
          match expr with
          | .mk ty (.Concatenation vals) =>
            (match comparison fuel ts pos with
             | .error e => .error e
             | .ok (r, p2) =>
               string_concat_loop fuel ts p2 (.mk ty (.Concatenation (vals ++ [r]))))
          | _ =>
            match comparison fuel ts pos with
            | .error e => .error e
            | .ok (r, p2) =>
              string_concat_loop fuel ts p2 (TypedExpr.new_var (.Concatenation [expr, r]))
  termination_by structural fuel => fuel

/-- `Parser::comparison` (the additive level), entry: parse the
multiplicative level, then loop over `+`/`-`. -/
def comparison : Nat → List Token → Nat → Except ParseErr (TypedExpr × Nat)
  | 0, _, _ => .error .outOfFuel
  | fuel + 1, ts, pos =>
    match term fuel ts pos with
    | .error e => .error e
    | .ok (e, p) => comparison_loop fuel ts p e
  termination_by structural fuel => fuel

/-- `Parser::comparison`, the loop: read the operator back out of
`previous()` (any other shape is the "Parser bug in comparison function"
panic); when the left operand is a bare variable and the operator token is
doubled (`var++` / `var--`), consume the second operator token and rewrite
to `((var = var + 1) - 1)` resp. `((var = var - 1) + 1)`; otherwise the
right operand is a recursive parse of this same level. -/
def comparison_loop : Nat → List Token → Nat → TypedExpr → Except ParseErr (TypedExpr × Nat)
  | 0, _, _, _ => .error .outOfFuel
  | fuel + 1, ts, pos, expr =>
    match matches' [.Plus, .Minus] ts pos with
    | .error e => .error e
    | .ok (true, p) =>
      (match previousTok ts p with
       | .error e => .error e
       | .ok (.MathOp .Minus) => comparison_op fuel ts p expr .Minus
       | .ok (.MathOp .Plus) => comparison_op fuel ts p expr .Plus
       | .ok _ => .error (.parserBug "Parser bug in comparison function"))
    | .ok (false, _) => .ok (expr, pos)
  termination_by structural fuel => fuel

/-- `Parser::comparison`, body of one loop iteration after the operator is
known (the `if let Expr::Variable(name)` dispatch). -/
def comparison_op : Nat → List Token → Nat → TypedExpr → MathOp → Except ParseErr (TypedExpr × Nat)
  | 0, _, _, _, _ => .error .outOfFuel
  | fuel + 1, ts, pos, expr, op =>
    match expr.expr with
    | .Variable name =>
      (match peek ts pos with
       | .error e => .error e
       | .ok t =>
         if op = .Plus ∧ t.ttype = .Plus then
           match advance ts pos with
           | .error e => .error e
           | .ok (_, p2) =>
             let increment := TypedExpr.new_var
               (.MathOp expr op (TypedExpr.new_var (.NumberF64 1)))
             let assign := TypedExpr.new_var (.Assign name increment)
             comparison_loop fuel ts p2 (TypedExpr.new_var
               (.MathOp assign .Minus (TypedExpr.new_var (.NumberF64 1))))
         else if op = .Minus ∧ t.ttype = .Minus then
           match advance ts pos with
           | .error e => .error e
           | .ok (_, p2) =>
             let decrement := TypedExpr.new_var
               (.MathOp expr op (TypedExpr.new_var (.NumberF64 1)))
             let assign := TypedExpr.new_var (.Assign name decrement)
             comparison_loop fuel ts p2 (TypedExpr.new_var
               (.MathOp assign .Plus (TypedExpr.new_var (.NumberF64 1))))
         else
           match comparison fuel ts pos with
           | .error e => .error e
           | .ok (r, p2) =>
             comparison_loop fuel ts p2 (TypedExpr.new_var (.MathOp expr op r)))
    | _ =>
      match comparison fuel ts pos with
      | .error e => .error e
      | .ok (r, p2) => comparison_loop fuel ts p2 (TypedExpr.new_var (.MathOp expr op r))
  termination_by structural fuel => fuel

/-- `Parser::term` (the multiplicative level), entry. -/
def term : Nat → List Token → Nat → Except ParseErr (TypedExpr × Nat)
  | 0, _, _ => .error .outOfFuel
  | fuel + 1, ts, pos =>
    match exp fuel ts pos with
    | .error e => .error e
    | .ok (e, p) => term_loop fuel ts p e
  termination_by structural fuel => fuel

/-- `Parser::term`, the loop over `*`, `/`, `%` (the catch-all panic reuses
the message "Parser bug in comparison function"). -/
def term_loop : Nat → List Token → Nat → TypedExpr → Except ParseErr (TypedExpr × Nat)
  | 0, _, _, _ => .error .outOfFuel
  | fuel + 1, ts, pos, expr =>
    match matches' [.Star, .Slash, .Modulo] ts pos with
    | .error e => .error e
    | .ok (true, p) =>
      (match previousTok ts p with
       | .error e => .error e
       | .ok (.MathOp .Star) => term_rhs fuel ts p expr .Star
       | .ok (.MathOp .Slash) => term_rhs fuel ts p expr .Slash
       | .ok (.MathOp .Modulus) => term_rhs fuel ts p expr .Modulus
       | .ok _ => .error (.parserBug "Parser bug in comparison function"))
    | .ok (false, _) => .ok (expr, pos)
  termination_by structural fuel => fuel

/-- `Parser::term`, body of one loop iteration:
`expr = MathOp(expr, op, exp()).into()`. -/
def term_rhs : Nat → List Token → Nat → TypedExpr → MathOp → Except ParseErr (TypedExpr × Nat)
  | 0, _, _, _, _ => .error .outOfFuel
  | fuel + 1, ts, pos, expr, op =>
    match exp fuel ts pos with
    | .error e => .error e
    | .ok (r, p2) => term_loop fuel ts p2 (TypedExpr.new_var (.MathOp expr op r))
  termination_by structural fuel => fuel

/-- `Parser::exp` (the exponent level), entry. -/
def exp : Nat → List Token → Nat → Except ParseErr (TypedExpr × Nat)
  | 0, _, _ => .error .outOfFuel
  | fuel + 1, ts, pos =>
    match column fuel ts pos with
    | .error e => .error e
    | .ok (e, p) => exp_loop fuel ts p e
  termination_by structural fuel => fuel

/-- `Parser::exp`, the iterative (left-associative) loop over `^`. -/
def exp_loop : Nat → List Token → Nat → TypedExpr → Except ParseErr (TypedExpr × Nat)
  | 0, _, _, _ => .error .outOfFuel
  | fuel + 1, ts, pos, expr =>
    match matches' [.Exponent] ts pos with
    | .error e => .error e
    | .ok (true, p) =>
      match column fuel ts p with
      | .error e => .error e
      | .ok (r, p2) =>
        exp_loop fuel ts p2 (TypedExpr.new_var (.MathOp expr .Exponent r))
    | .ok (false, _) => .ok (expr, pos)
  termination_by structural fuel => fuel

/-- `Parser::column`: count the leading `$` sigils, parse one primary, and
wrap it in that many `Column` nodes. -/
def column : Nat → List Token → Nat → Except ParseErr (TypedExpr × Nat)
  | 0, _, _ => .error .outOfFuel
  | fuel + 1, ts, pos =>
    match column_count fuel ts pos with
    | .error e => .error e
    | .ok (num_cols, p) =>
      match primary fuel ts p with
      | .error e => .error e
      | .ok (e, p2) => .ok (wrap_columns num_cols e, p2)
  termination_by structural fuel => fuel

/-- `Parser::column`, the `while self.matches(vec![Column])` counting loop. -/
def column_count : Nat → List Token → Nat → Except ParseErr (Nat × Nat)
  | 0, _, _ => .error .outOfFuel
  | fuel + 1, ts, pos =>
    match matches' [.Column] ts pos with
    | .error e => .error e
    | .ok (true, p) =>
      match column_count fuel ts p with
      | .error e => .error e
      | .ok (n, p2) => .ok (n + 1, p2)
    | .ok (false, _) => .ok (0, pos)
  termination_by structural fuel => fuel

/-- `Parser::primary`: panic at end of stream; else a float literal, a
parenthesized expression, a bare identifier, or a string literal — any
other token is the "Unexpected token" panic. -/
def primary : Nat → List Token → Nat → Except ParseErr (TypedExpr × Nat)
  | 0, _, _ => .error .outOfFuel
  | fuel + 1, ts, pos =>
    match is_at_end ts pos with
    | .error e => .error e
    | .ok true => .error .primaryAtEnd
    | .ok false =>
      match ts[pos]? with
      | none => .error .oob
      | some (.NumberF64 num) =>
        (match advance ts pos with
         | .error e => .error e
         | .ok (_, p) => .ok (TypedExpr.new_var (.NumberF64 num), p))
      | some .LeftParen =>
        (match consume .LeftParen "Expected to parse a left paren here" ts pos with
         | .error e => .error e
         | .ok (_, p) =>
           match expression fuel ts p with
           | .error e => .error e
           | .ok (e, p2) =>
             match consume .RightParen "Missing closing ')' after group" ts p2 with
             | .error e => .error e
             | .ok (_, p3) => .ok (e, p3))
      | some (.Ident name) =>
        (match consume .Ident "Expected to parse an ident here" ts pos with
         | .error e => .error e
         | .ok (_, p) => .ok (TypedExpr.new_var (.Variable name), p))
      | some (.String s) =>
        (match consume .String "Expected to parse a string here" ts pos with
         | .error e => .error e
         | .ok (_, p) => .ok (TypedExpr.new_var (.String s), p))
      | some t => .error (.unexpectedToken t t.ttype)
  termination_by structural fuel => fuel

/-- `Parser::stmt`, with its branches in source order: `print`, `for`
(desugared on the spot), the `ident =` lookahead, `while`, a second
(unreachable) `print` branch, `if`, a braced group, and the fall-through
expression statement. -/
def stmt : Nat → List Token → Nat → Except ParseErr (Stmt × Nat)
  | 0, _, _ => .error .outOfFuel
  | fuel + 1, ts, pos =>
    match matches' [.Print] ts pos with
    | .error e => .error e
    | .ok (true, p) =>
      (match expression fuel ts p with
       | .error e => .error e
       | .ok (e, p2) => .ok (.Print e, p2))
    | .ok (false, _) =>
      match matches' [.For] ts pos with
      | .error e => .error e
      | .ok (true, p) =>
        (match consume .LeftParen "Expected a '(' after the for keyword" ts p with
         | .error e => .error e
         | .ok (_, q1) =>
           match stmt fuel ts q1 with
           | .error e => .error e
           | .ok (init, q2) =>
             match consume .Semicolon "Expected a ';' after for loop init statement" ts q2 with
             | .error e => .error e
             | .ok (_, q3) =>
               match expression fuel ts q3 with
               | .error e => .error e
               | .ok (test, q4) =>
                 match consume .Semicolon "Expected a ';' after for loop test statement" ts q4 with
                 | .error e => .error e
                 | .ok (_, q5) =>
                   match stmt fuel ts q5 with
                   | .error e => .error e
                   | .ok (incr, q6) =>
                     match consume .RightParen "Expected a ')' to end for loop" ts q6 with
                     | .error e => .error e
                     | .ok (_, q7) =>
                       match consume .LeftBrace "Expected a '\x7b' to begin for loop body" ts q7 with
                       | .error e => .error e
                       | .ok (_, q8) =>
                         match stmts fuel ts q8 with
                         | .error e => .error e
                         | .ok (body, q9) =>
                           match consume .RightBrace "Expected a '\x7d' after for loop body" ts q9 with
                           | .error e => .error e
                           | .ok (_, q10) =>
                             .ok (.Group [init, .While test (.Group [body, incr])], q10))
      | .ok (false, _) =>
        match peek_next ts pos with
        | .error e => .error e
        | .ok nt =>
          if nt.ttype = .Eq then
            match consume .Ident "Expected identifier before '='" ts pos with
            | .error e => .error e
            | .ok (.Ident str, r1) =>
              (match consume .Eq "Expected '=' after identifier" ts r1 with
               | .error e => .error e
               | .ok (_, r2) =>
                 match expression fuel ts r2 with
                 | .error e => .error e
                 | .ok (e, r3) =>
                   .ok (.Expr (TypedExpr.new_var (.Assign str e)), r3))
            | .ok _ => .error .expectedIdent
          else
            match matches' [.While] ts pos with
            | .error e => .error e
            | .ok (true, p) =>
              (match consume .LeftParen "Must have paren after while" ts p with
               | .error e => .error e
               | .ok (_, w1) =>
                 match expression fuel ts w1 with
                 | .error e => .error e
                 | .ok (e, w2) =>
                   match consume .RightParen
                       "Must have right parent after while statement test expression" ts w2 with
                   | .error e => .error e
                   | .ok (_, w3) =>
                     match consume .LeftBrace "Must have brace after `while (expr)`" ts w3 with
                     | .error e => .error e
                     | .ok (_, w4) =>
                       match stmts fuel ts w4 with
                       | .error e => .error e
                       | .ok (body, w5) =>
                         match consume .RightBrace "While loop must be followed by '\x7d'" ts w5 with
                         | .error e => .error e
                         | .ok (_, w6) => .ok (.While e body, w6))
            | .ok (false, _) =>
              match matches' [.Print] ts pos with
              | .error e => .error e
              | .ok (true, p) =>
                (match expression fuel ts p with
                 | .error e => .error e
                 | .ok (e, p2) => .ok (.Print e, p2))
              | .ok (false, _) =>
                match matches' [.If] ts pos with
                | .error e => .error e
                | .ok (true, p) => if_stmt fuel ts p
                | .ok (false, _) =>
                  match matches' [.LeftBrace] ts pos with
                  | .error e => .error e
                  | .ok (true, p) =>
                    (match stmts fuel ts p with
                     | .error e => .error e
                     | .ok (s, p2) =>
                       match consume .RightBrace "Expected a right brace after a group" ts p2 with
                       | .error e => .error e
                       | .ok (_, p3) => .ok (s, p3))
                  | .ok (false, _) =>
                    match expression fuel ts pos with
                    | .error e => .error e
                    | .ok (e, p) => .ok (.Expr e, p)
  termination_by structural fuel => fuel

/-- `Parser::stmt_and_optional_semicolon`. -/
def stmt_and_optional_semicolon : Nat → List Token → Nat → Except ParseErr (Stmt × Nat)
  | 0, _, _ => .error .outOfFuel
  | fuel + 1, ts, pos =>
    match stmt fuel ts pos with
    | .error e => .error e
    | .ok (s, p) =>
      match peek ts p with
      | .error e => .error e
      | .ok t =>
        if t.ttype = .Semicolon then
          match consume .Semicolon "not possible" ts p with
          | .error e => .error e
          | .ok (_, p2) => .ok (s, p2)
        else .ok (s, p)
  termination_by structural fuel => fuel

/-- `Parser::stmts`: collect statements up to the closing brace; a list of
exactly one statement is returned unwrapped (the Rust
`if stmts.len() == 1 { return stmts.pop().unwrap(); }`), anything else
becomes a `Group`. -/
def stmts : Nat → List Token → Nat → Except ParseErr (Stmt × Nat)
  | 0, _, _ => .error .outOfFuel
  | fuel + 1, ts, pos =>
    match stmts_loop fuel ts pos [] with
    | .error e => .error e
    | .ok (l, p) =>
      match l with
      | [s] => .ok (s, p)
      | _ => .ok (.Group l, p)
  termination_by structural fuel => fuel

/-- `Parser::stmts`, the `while self.peek().ttype() != RightBrace` loop. -/
def stmts_loop : Nat → List Token → Nat → List Stmt → Except ParseErr (List Stmt × Nat)
  | 0, _, _, _ => .error .outOfFuel
  | fuel + 1, ts, pos, acc =>
    match peek ts pos with
    | .error e => .error e
    | .ok t =>
      if t.ttype = .RightBrace then .ok (acc, pos)
      else
        match stmt_and_optional_semicolon fuel ts pos with
        | .error e => .error e
        | .ok (s, p) => stmts_loop fuel ts p (acc ++ [s])
  termination_by structural fuel => fuel

/-- `Parser::if_stmt` (called after the `if` token is consumed). -/
def if_stmt : Nat → List Token → Nat → Except ParseErr (Stmt × Nat)
  | 0, _, _ => .error .outOfFuel
  | fuel + 1, ts, pos =>
    match consume .LeftParen "Expected '(' after if" ts pos with
    | .error e => .error e
    | .ok (_, p1) =>
      match expression fuel ts p1 with
      | .error e => .error e
      | .ok (predicate, p2) =>
        match consume .RightParen "Expected ')' after if predicate" ts p2 with
        | .error e => .error e
        | .ok (_, p3) =>
          match group fuel ts p3 with
          | .error e => .error e
          | .ok (then_blk, p4) =>
            match matches' [.Else] ts p4 with
            | .error e => .error e
            | .ok (true, p5) =>
              (match group fuel ts p5 with
               | .error e => .error e
               | .ok (else_blk, p6) =>
                 .ok (.If predicate then_blk (some else_blk), p6))
            | .ok (false, p5) => .ok (.If predicate then_blk none, p5)
  termination_by structural fuel => fuel

/-- `Parser::group`: a braced statement block (both of the Rust messages
say "Expected a '\x7d'"). -/
def group : Nat → List Token → Nat → Except ParseErr (Stmt × Nat)
  | 0, _, _ => .error .outOfFuel
  | fuel + 1, ts, pos =>
    match consume .LeftBrace "Expected a '\x7d'" ts pos with
    | .error e => .error e
    | .ok (_, p1) =>
      match stmts fuel ts p1 with
      | .error e => .error e
      | .ok (s, p2) =>
        match consume .RightBrace "Expected a '\x7d'" ts p2 with
        | .error e => .error e
        | .ok (_, p3) => .ok (s, p3)
  termination_by structural fuel => fuel

/-- `Parser::pattern_action`: one top-level unit — a bare action block, a
`BEGIN` block, an `END` block, or a pattern expression with an optional
action block (without one, the implicit whole-record print). -/
def pattern_action : Nat → List Token → Nat → Except ParseErr (PAType × Nat)
  | 0, _, _ => .error .outOfFuel
  | fuel + 1, ts, pos =>
    match matches' [.LeftBrace] ts pos with
    | .error e => .error e
    | .ok (true, p) =>
      (match stmts fuel ts p with
       | .error e => .error e
       | .ok (s, p2) =>
         match consume .RightBrace "Expected '\x7d' after action block" ts p2 with
         | .error e => .error e
         | .ok (_, p3) => .ok (.Normal (PatternAction.new_action_only s), p3))
    | .ok (false, _) =>
      match matches' [.Begin] ts pos with
      | .error e => .error e
      | .ok (true, p) =>
        (match consume .LeftBrace "Expected a '\x7b' after a begin" ts p with
         | .error e => .error e
         | .ok (_, q1) =>
           match stmts fuel ts q1 with
           | .error e => .error e
           | .ok (s, q2) =>
             match consume .RightBrace "Begin action should end with '\x7d'" ts q2 with
             | .error e => .error e
             | .ok (_, q3) => .ok (.Begin s, q3))
      | .ok (false, _) =>
        match matches' [.End] ts pos with
        | .error e => .error e
        | .ok (true, p) =>
          (match consume .LeftBrace "Expected a \x7b' after a end" ts p with
           | .error e => .error e
           | .ok (_, q1) =>
             match stmts fuel ts q1 with
             | .error e => .error e
             | .ok (s, q2) =>
               match consume .RightBrace "End action should end with '\x7d'" ts q2 with
               | .error e => .error e
               | .ok (_, q3) => .ok (.End s, q3))
        | .ok (false, _) =>
          match expression fuel ts pos with
          | .error e => .error e
          | .ok (test, p4) =>
            match matches' [.LeftBrace] ts p4 with
            | .error e => .error e
            | .ok (true, p5) =>
              (match stmts fuel ts p5 with
               | .error e => .error e
               | .ok (s, p6) =>
                 match consume .RightBrace "Patern action should end with '\x7d'" ts p6 with
                 | .error e => .error e
                 | .ok (_, p7) => .ok (.Normal (PatternAction.new (some test) s), p7))
            | .ok (false, p5) => .ok (.Normal (PatternAction.new_pattern_only test), p5)

/-- `Parser::parse`, the `while !self.is_at_end()` driver loop, with the
three accumulating lists. -/
def parse_loop : Nat → List Token → Nat → List Stmt → List Stmt → List PatternAction →
    Except ParseErr (Program × Nat)
  | 0, _, _, _, _, _ => .error .outOfFuel
  | fuel + 1, ts, pos, begin_acc, end_acc, generic =>
    match is_at_end ts pos with
    | .error e => .error e
    | .ok true => .ok (Program.new begin_acc end_acc generic, pos)
    | .ok false =>
      match pattern_action fuel ts pos with
      | .error e => .error e
      | .ok (.Normal pa, p) => parse_loop fuel ts p begin_acc end_acc (generic ++ [pa])
      | .ok (.Begin s, p) => parse_loop fuel ts p (begin_acc ++ [s]) end_acc generic
      | .ok (.End s, p) => parse_loop fuel ts p begin_acc (end_acc ++ [s]) generic
  termination_by structural fuel => fuel

end

/-- The free function `parse(tokens) -> Program`: run the driver loop from
cursor 0 with empty lists. -/
def parse (fuel : Nat) (tokens : List Token) : Except ParseErr Program :=
  match parse_loop fuel tokens 0 [] [] [] with
  | .error e => .error e
  | .ok (p, _) => .ok p


/-! ## Evaluation lemmas for the cursor primitives

Small rewriting lemmas used to run the parser symbolically inside proofs:
one lemma per outcome of each primitive. -/

theorem peek_some {ts : List Token} {pos : Nat} {t : Token} (h : ts[pos]? = some t) :
    peek ts pos = .ok t := by
  simp [peek, h]

theorem is_at_end_false {ts : List Token} {pos : Nat} {t : Token} (h : ts[pos]? = some t)
    (hne : t.ttype ≠ .EOF) : is_at_end ts pos = .ok false := by
  simp [is_at_end, peek, h, hne]

theorem is_at_end_true {ts : List Token} {pos : Nat} {t : Token} (h : ts[pos]? = some t)
    (he : t.ttype = .EOF) : is_at_end ts pos = .ok true := by
  simp [is_at_end, peek, h, he]

theorem advance_some {ts : List Token} {pos : Nat} {t : Token} (h : ts[pos]? = some t)
    (hne : t.ttype ≠ .EOF) : advance ts pos = .ok (t, pos + 1) := by
  simp [advance, is_at_end_false h hne, previousTok, h]

theorem matches_yes {ts : List Token} {pos : Nat} {t : Token} {l : List TokenType}
    (h : ts[pos]? = some t) (hmem : t.ttype ∈ l) (hne : t.ttype ≠ .EOF) :
    matches' l ts pos = .ok (true, pos + 1) := by
  simp [matches', h, hmem, advance_some h hne]

theorem matches_no {ts : List Token} {pos : Nat} {t : Token} {l : List TokenType}
    (h : ts[pos]? = some t) (hmem : t.ttype ∉ l) :
    matches' l ts pos = .ok (false, pos) := by
  simp [matches', h, hmem]

theorem matches_none {ts : List Token} {pos : Nat} {l : List TokenType}
    (h : ts[pos]? = none) : matches' l ts pos = .ok (false, pos) := by
  simp [matches', h]

theorem consume_some {ts : List Token} {pos : Nat} {t : Token} {typ : TokenType} {msg : String}
    (h : ts[pos]? = some t) (heq : t.ttype = typ) (hne : t.ttype ≠ .EOF) :
    consume typ msg ts pos = .ok (t, pos + 1) := by
  simp [consume, check, is_at_end_false h hne, peek, h, heq, advance_some h hne]

theorem consume_fail {ts : List Token} {pos : Nat} {t : Token} {typ : TokenType} {msg : String}
    (h : ts[pos]? = some t) (hne : t.ttype ≠ typ) :
    consume typ msg ts pos = .error (.consumeFail msg typ t.ttype t) := by
  by_cases he : t.ttype = .EOF
  · simp [consume, check, is_at_end_true h he, peek, h, Ne.symm hne]
  · simp [consume, check, is_at_end_false h he, peek, h, Ne.symm hne]

/-! ## Evaluation lemmas for the expression levels

For each precedence level, how it falls through when the next token does
not belong to the level's operator set, and how the leaf level reads one
token.  Together these run the precedence chain symbolically. -/

theorem primary_num {ts : List Token} {pos : Nat} {n : ℚ} {f : Nat}
    (h : ts[pos]? = some (.NumberF64 n)) :
    primary (f + 1) ts pos = .ok (TypedExpr.new_var (.NumberF64 n), pos + 1) := by
  have hne : (Token.NumberF64 n).ttype ≠ TokenType.EOF := by simp [Token.ttype]
  simp [primary, is_at_end_false h hne, h, advance_some h hne]

theorem primary_ident {ts : List Token} {pos : Nat} {v : String} {f : Nat}
    (h : ts[pos]? = some (.Ident v)) :
    primary (f + 1) ts pos = .ok (TypedExpr.new_var (.Variable v), pos + 1) := by
  have hne : (Token.Ident v).ttype ≠ TokenType.EOF := by simp [Token.ttype]
  have hc : consume .Ident "Expected to parse an ident here" ts pos = .ok (.Ident v, pos + 1) :=
    consume_some h (by simp [Token.ttype]) hne
  simp [primary, is_at_end_false h hne, h, hc]

theorem primary_string {ts : List Token} {pos : Nat} {s : String} {f : Nat}
    (h : ts[pos]? = some (.String s)) :
    primary (f + 1) ts pos = .ok (TypedExpr.new_var (.String s), pos + 1) := by
  have hne : (Token.String s).ttype ≠ TokenType.EOF := by simp [Token.ttype]
  have hc : consume .String "Expected to parse a string here" ts pos = .ok (.String s, pos + 1) :=
    consume_some h (by simp [Token.ttype]) hne
  simp [primary, is_at_end_false h hne, h, hc]

theorem column_count_no {ts : List Token} {pos : Nat} {t : Token} {f : Nat}
    (h : ts[pos]? = some t) (hc : t.ttype ≠ .Column) :
    column_count (f + 1) ts pos = .ok (0, pos) := by
  have hm : matches' [.Column] ts pos = .ok (false, pos) := matches_no h (by simp [hc])
  simp [column_count, hm]

theorem column_num {ts : List Token} {pos : Nat} {n : ℚ} {f : Nat}
    (h : ts[pos]? = some (.NumberF64 n)) :
    column (f + 2) ts pos = .ok (TypedExpr.new_var (.NumberF64 n), pos + 1) := by
  have hcc : column_count (f + 1) ts pos = .ok (0, pos) :=
    column_count_no h (by simp [Token.ttype])
  simp [column, hcc, primary_num h, wrap_columns]

theorem column_ident {ts : List Token} {pos : Nat} {v : String} {f : Nat}
    (h : ts[pos]? = some (.Ident v)) :
    column (f + 2) ts pos = .ok (TypedExpr.new_var (.Variable v), pos + 1) := by
  have hcc : column_count (f + 1) ts pos = .ok (0, pos) :=
    column_count_no h (by simp [Token.ttype])
  simp [column, hcc, primary_ident h, wrap_columns]

theorem exp_of {ts : List Token} {pos p : Nat} {e : TypedExpr} {t : Token} {f : Nat}
    (hsub : column f ts pos = .ok (e, p)) (h : ts[p]? = some t)
    (hne : t.ttype ≠ .Exponent) :
    exp (f + 1) ts pos = .ok (e, p) := by
  match f with
  | 0 => simp [column] at hsub
  | g + 1 =>
    have hm : matches' [.Exponent] ts p = .ok (false, p) := matches_no h (by simp [hne])
    simp [exp, hsub, exp_loop, hm]

theorem term_of {ts : List Token} {pos p : Nat} {e : TypedExpr} {t : Token} {f : Nat}
    (hsub : exp f ts pos = .ok (e, p)) (h : ts[p]? = some t)
    (h1 : t.ttype ≠ .Star) (h2 : t.ttype ≠ .Slash) (h3 : t.ttype ≠ .Modulo) :
    term (f + 1) ts pos = .ok (e, p) := by
  match f with
  | 0 => simp [exp] at hsub
  | g + 1 =>
    have hm : matches' [.Star, .Slash, .Modulo] ts p = .ok (false, p) :=
      matches_no h (by simp [h1, h2, h3])
    simp [term, hsub, term_loop, hm]

theorem comparison_of {ts : List Token} {pos p : Nat} {e : TypedExpr} {t : Token} {f : Nat}
    (hsub : term f ts pos = .ok (e, p)) (h : ts[p]? = some t)
    (h1 : t.ttype ≠ .Plus) (h2 : t.ttype ≠ .Minus) :
    comparison (f + 1) ts pos = .ok (e, p) := by
  match f with
  | 0 => simp [term] at hsub
  | g + 1 =>
    have hm : matches' [.Plus, .Minus] ts p = .ok (false, p) := matches_no h (by simp [h1, h2])
    simp [comparison, hsub, comparison_loop, hm]

theorem string_concat_of {ts : List Token} {pos p : Nat} {e : TypedExpr} {t : Token} {f : Nat}
    (hsub : comparison f ts pos = .ok (e, p)) (h : ts[p]? = some t)
    (hstop : t.ttype = .EOF ∨ t.ttype ∈ not_these) :
    string_concat (f + 1) ts pos = .ok (e, p) := by
  match f with
  | 0 => simp [comparison] at hsub
  | g + 1 =>
    rcases hstop with he | hmem
    · simp [string_concat, hsub, string_concat_loop, is_at_end_true h he]
    · have hne : t.ttype ≠ .EOF := by
        intro hc
        rw [hc] at hmem
        simp [not_these] at hmem
      simp [string_concat, hsub, string_concat_loop, is_at_end_false h hne, peek_some h, hmem]

theorem compare_of {ts : List Token} {pos p : Nat} {e : TypedExpr} {t : Token} {f : Nat}
    (hsub : string_concat f ts pos = .ok (e, p)) (h : ts[p]? = some t)
    (h1 : t.ttype ≠ .GreaterEq) (h2 : t.ttype ≠ .Greater) (h3 : t.ttype ≠ .Less)
    (h4 : t.ttype ≠ .LessEq) (h5 : t.ttype ≠ .EqEq) (h6 : t.ttype ≠ .BangEq) :
    compare (f + 1) ts pos = .ok (e, p) := by
  match f with
  | 0 => simp [string_concat] at hsub
  | g + 1 =>
    have hm : matches' [.GreaterEq, .Greater, .Less, .LessEq, .EqEq, .BangEq] ts p
        = .ok (false, p) := matches_no h (by simp [h1, h2, h3, h4, h5, h6])
    simp [compare, hsub, compare_loop, hm]

theorem logical_and_of {ts : List Token} {pos p : Nat} {e : TypedExpr} {t : Token} {f : Nat}
    (hsub : compare f ts pos = .ok (e, p)) (h : ts[p]? = some t)
    (hne : t.ttype ≠ .And) :
    logical_and (f + 1) ts pos = .ok (e, p) := by
  match f with
  | 0 => simp [compare] at hsub
  | g + 1 =>
    have hm : matches' [.And] ts p = .ok (false, p) := matches_no h (by simp [hne])
    simp [logical_and, hsub, logical_and_loop, hm]

theorem logical_or_of {ts : List Token} {pos p : Nat} {e : TypedExpr} {t : Token} {f : Nat}
    (hsub : logical_and f ts pos = .ok (e, p)) (h : ts[p]? = some t)
    (hne : t.ttype ≠ .Or) :
    logical_or (f + 1) ts pos = .ok (e, p) := by
  match f with
  | 0 => simp [logical_and] at hsub
  | g + 1 =>
    have hm : matches' [.Or] ts p = .ok (false, p) := matches_no h (by simp [hne])
    simp [logical_or, hsub, logical_or_loop, hm]

/-- The assignment level leaves any left-hand side that is not a bare
variable reference untouched, cursor included. -/
theorem assignment_nonvar {ts : List Token} {pos p : Nat} {e : TypedExpr} {f : Nat}
    (hsub : logical_or f ts pos = .ok (e, p)) (hv : ∀ v, e.expr ≠ .Variable v) :
    assignment (f + 1) ts pos = .ok (e, p) := by
  rcases e with ⟨ty, ex⟩
  cases ex
  case Variable name => exact absurd rfl (hv name)
  all_goals simp [assignment, hsub, TypedExpr.expr]


theorem expr_new_var (e : Expr) : (TypedExpr.new_var e).expr = e := rfl

theorem ttype_rbrace : (Token.RightBrace).ttype = TokenType.RightBrace := rfl

theorem expr_mk (t : AwkT) (e : Expr) : (TypedExpr.mk t e).expr = e := rfl

theorem exp_loop_stop {ts : List Token} {pos : Nat} {t : Token} {e : TypedExpr} {f : Nat}
    (h : ts[pos]? = some t) (hne : t.ttype ≠ .Exponent) :
    exp_loop (f + 1) ts pos e = .ok (e, pos) := by
  have hm : matches' [.Exponent] ts pos = .ok (false, pos) := matches_no h (by simp [hne])
  simp [exp_loop, hm]

theorem term_loop_stop {ts : List Token} {pos : Nat} {t : Token} {e : TypedExpr} {f : Nat}
    (h : ts[pos]? = some t) (h1 : t.ttype ≠ .Star) (h2 : t.ttype ≠ .Slash)
    (h3 : t.ttype ≠ .Modulo) :
    term_loop (f + 1) ts pos e = .ok (e, pos) := by
  have hm : matches' [.Star, .Slash, .Modulo] ts pos = .ok (false, pos) :=
    matches_no h (by simp [h1, h2, h3])
  simp [term_loop, hm]

theorem comparison_loop_stop {ts : List Token} {pos : Nat} {t : Token} {e : TypedExpr} {f : Nat}
    (h : ts[pos]? = some t) (h1 : t.ttype ≠ .Plus) (h2 : t.ttype ≠ .Minus) :
    comparison_loop (f + 1) ts pos e = .ok (e, pos) := by
  have hm : matches' [.Plus, .Minus] ts pos = .ok (false, pos) :=
    matches_no h (by simp [h1, h2])
  simp [comparison_loop, hm]

/-- The assignment level on a bare-variable left-hand side followed by
`=`: `Assign(var, rhs)` with the right-hand side parsed recursively at the
assignment level. -/
theorem assignment_var_eq {ts : List Token} {pos : Nat} {ty : AwkT} {v : String}
    {p : Nat} {rhs : TypedExpr} {p2 : Nat} {f : Nat}
    (h : logical_or f ts pos = .ok (.mk ty (.Variable v), p))
    (he : ts[p]? = some .Eq)
    (hrhs : assignment f ts (p + 1) = .ok (rhs, p2)) :
    assignment (f + 1) ts pos = .ok (TypedExpr.new_var (.Assign v rhs), p2) := by
  have hm : matches' [.Eq] ts p = .ok (true, p + 1) :=
    matches_yes he (by simp [Token.ttype]) (by simp [Token.ttype])
  simp [assignment, h, TypedExpr.expr, hm, hrhs]

/-! ## Claim theorems -/

/-- C4: precedence of the arithmetic levels — `1 + 3 * 2` parses to
`Plus(1, Star(3,2))`, `1 * 3 + 2` to `Plus(Star(1,3), 2)`, `2 ^ 2 * 3` to
`Star(Exponent(2,2), 3)`; and the exponent level is left-associative and
iterative: a chain `a ^ b ^ c` groups as `Exponent(Exponent(a,b),c)` for
all operands. -/
theorem claim_C4_precedence :
    (expression 30 [.NumberF64 1, .MathOp .Plus, .NumberF64 3, .MathOp .Star,
        .NumberF64 2, .EOF] 0
      = .ok (TypedExpr.new_var (.MathOp (TypedExpr.new_var (.NumberF64 1)) .Plus
          (TypedExpr.new_var (.MathOp (TypedExpr.new_var (.NumberF64 3)) .Star
            (TypedExpr.new_var (.NumberF64 2))))), 5))
  ∧ (expression 30 [.NumberF64 1, .MathOp .Star, .NumberF64 3, .MathOp .Plus,
        .NumberF64 2, .EOF] 0
      = .ok (TypedExpr.new_var (.MathOp
          (TypedExpr.new_var (.MathOp (TypedExpr.new_var (.NumberF64 1)) .Star
            (TypedExpr.new_var (.NumberF64 3)))) .Plus
          (TypedExpr.new_var (.NumberF64 2))), 5))
  ∧ (expression 30 [.NumberF64 2, .MathOp .Exponent, .NumberF64 2, .MathOp .Star,
        .NumberF64 3, .EOF] 0
      = .ok (TypedExpr.new_var (.MathOp
          (TypedExpr.new_var (.MathOp (TypedExpr.new_var (.NumberF64 2)) .Exponent
            (TypedExpr.new_var (.NumberF64 2)))) .Star
          (TypedExpr.new_var (.NumberF64 3))), 5))
  ∧ (∀ (f : Nat) (a b c : ℚ),
      exp (f + 5) [.NumberF64 a, .MathOp .Exponent, .NumberF64 b, .MathOp .Exponent,
          .NumberF64 c, .EOF] 0
        = .ok (TypedExpr.new_var (.MathOp
            (TypedExpr.new_var (.MathOp (TypedExpr.new_var (.NumberF64 a)) .Exponent
              (TypedExpr.new_var (.NumberF64 b)))) .Exponent
            (TypedExpr.new_var (.NumberF64 c))), 5)) := by
  refine ⟨rfl, rfl, rfl, ?_⟩
  intro f a b c
  have h1 : [Token.NumberF64 a, .MathOp .Exponent, .NumberF64 b, .MathOp .Exponent,
      .NumberF64 c, .EOF][1]? = some (.MathOp .Exponent) := rfl
  have h3 : [Token.NumberF64 a, .MathOp .Exponent, .NumberF64 b, .MathOp .Exponent,
      .NumberF64 c, .EOF][3]? = some (.MathOp .Exponent) := rfl
  have h5 : [Token.NumberF64 a, .MathOp .Exponent, .NumberF64 b, .MathOp .Exponent,
      .NumberF64 c, .EOF][5]? = some .EOF := rfl
  have hc0 : column (f + 4) [Token.NumberF64 a, .MathOp .Exponent, .NumberF64 b,
      .MathOp .Exponent, .NumberF64 c, .EOF] 0
      = .ok (TypedExpr.new_var (.NumberF64 a), 1) := column_num rfl
  have hc2 : column (f + 3) [Token.NumberF64 a, .MathOp .Exponent, .NumberF64 b,
      .MathOp .Exponent, .NumberF64 c, .EOF] 2
      = .ok (TypedExpr.new_var (.NumberF64 b), 3) := column_num rfl
  have hc4 : column (f + 2) [Token.NumberF64 a, .MathOp .Exponent, .NumberF64 b,
      .MathOp .Exponent, .NumberF64 c, .EOF] 4
      = .ok (TypedExpr.new_var (.NumberF64 c), 5) := column_num rfl
  have hm1 : matches' [.Exponent] [Token.NumberF64 a, .MathOp .Exponent, .NumberF64 b,
      .MathOp .Exponent, .NumberF64 c, .EOF] 1 = .ok (true, 2) :=
    matches_yes h1 (by simp [Token.ttype]) (by simp [Token.ttype])
  have hm3 : matches' [.Exponent] [Token.NumberF64 a, .MathOp .Exponent, .NumberF64 b,
      .MathOp .Exponent, .NumberF64 c, .EOF] 3 = .ok (true, 4) :=
    matches_yes h3 (by simp [Token.ttype]) (by simp [Token.ttype])
  have hm5 : matches' [.Exponent] [Token.NumberF64 a, .MathOp .Exponent, .NumberF64 b,
      .MathOp .Exponent, .NumberF64 c, .EOF] 5 = .ok (false, 5) :=
    matches_no h5 (by simp [Token.ttype])
  simp [exp, exp_loop, hc0, hc2, hc4, hm1, hm3, hm5]

/-- C10: chains of additive operators associate to the right — for all
operands, the tokens of `a - b - c` yield
`MathOp(a, Minus, MathOp(b, Minus, c))` because the additive level
recurses into itself for the right operand — while the multiplicative
level folds iteratively and left-associatively, so the tokens of
`a * b * c` yield `MathOp(MathOp(a, Star, b), Star, c)`. -/
theorem claim_C10_additive_right_assoc :
    (∀ (f : Nat) (a b c : ℚ),
      comparison (f + 11) [.NumberF64 a, .MathOp .Minus, .NumberF64 b, .MathOp .Minus,
          .NumberF64 c, .Semicolon] 0
        = .ok (TypedExpr.new_var (.MathOp (TypedExpr.new_var (.NumberF64 a)) .Minus
            (TypedExpr.new_var (.MathOp (TypedExpr.new_var (.NumberF64 b)) .Minus
              (TypedExpr.new_var (.NumberF64 c))))), 5))
  ∧ (∀ (f : Nat) (a b c : ℚ),
      term (f + 11) [.NumberF64 a, .MathOp .Star, .NumberF64 b, .MathOp .Star,
          .NumberF64 c, .Semicolon] 0
        = .ok (TypedExpr.new_var (.MathOp
            (TypedExpr.new_var (.MathOp (TypedExpr.new_var (.NumberF64 a)) .Star
              (TypedExpr.new_var (.NumberF64 b)))) .Star
            (TypedExpr.new_var (.NumberF64 c))), 5)) := by
  constructor
  · intro f a b c
    have h1 : [Token.NumberF64 a, .MathOp .Minus, .NumberF64 b, .MathOp .Minus,
        .NumberF64 c, .Semicolon][1]? = some (.MathOp .Minus) := rfl
    have h3 : [Token.NumberF64 a, .MathOp .Minus, .NumberF64 b, .MathOp .Minus,
        .NumberF64 c, .Semicolon][3]? = some (.MathOp .Minus) := rfl
    have h5 : [Token.NumberF64 a, .MathOp .Minus, .NumberF64 b, .MathOp .Minus,
        .NumberF64 c, .Semicolon][5]? = some .Semicolon := rfl
    -- the three operands, one `term` each
    have ht0 : term (f + 10) [Token.NumberF64 a, .MathOp .Minus, .NumberF64 b,
        .MathOp .Minus, .NumberF64 c, .Semicolon] 0
        = .ok (TypedExpr.new_var (.NumberF64 a), 1) :=
      term_of (exp_of (column_num rfl) h1 (by simp [Token.ttype]))
        h1 (by simp [Token.ttype]) (by simp [Token.ttype]) (by simp [Token.ttype])
    have ht2 : term (f + 7) [Token.NumberF64 a, .MathOp .Minus, .NumberF64 b,
        .MathOp .Minus, .NumberF64 c, .Semicolon] 2
        = .ok (TypedExpr.new_var (.NumberF64 b), 3) :=
      term_of (exp_of (column_num rfl) h3 (by simp [Token.ttype]))
        h3 (by simp [Token.ttype]) (by simp [Token.ttype]) (by simp [Token.ttype])
    have ht4 : term (f + 4) [Token.NumberF64 a, .MathOp .Minus, .NumberF64 b,
        .MathOp .Minus, .NumberF64 c, .Semicolon] 4
        = .ok (TypedExpr.new_var (.NumberF64 c), 5) :=
      term_of (exp_of (column_num rfl) h5 (by simp [Token.ttype]))
        h5 (by simp [Token.ttype]) (by simp [Token.ttype]) (by simp [Token.ttype])
    -- the innermost additive parse: just `c`
    have hcmp4 : comparison (f + 5) [Token.NumberF64 a, .MathOp .Minus, .NumberF64 b,
        .MathOp .Minus, .NumberF64 c, .Semicolon] 4
        = .ok (TypedExpr.new_var (.NumberF64 c), 5) :=
      comparison_of ht4 h5 (by simp [Token.ttype]) (by simp [Token.ttype])
    have hm1 : matches' [.Plus, .Minus] [Token.NumberF64 a, .MathOp .Minus, .NumberF64 b,
        .MathOp .Minus, .NumberF64 c, .Semicolon] 1 = .ok (true, 2) :=
      matches_yes h1 (by simp [Token.ttype]) (by simp [Token.ttype])
    have hm3 : matches' [.Plus, .Minus] [Token.NumberF64 a, .MathOp .Minus, .NumberF64 b,
        .MathOp .Minus, .NumberF64 c, .Semicolon] 3 = .ok (true, 4) :=
      matches_yes h3 (by simp [Token.ttype]) (by simp [Token.ttype])
    have hp2 : previousTok [Token.NumberF64 a, .MathOp .Minus, .NumberF64 b,
        .MathOp .Minus, .NumberF64 c, .Semicolon] 2 = .ok (.MathOp .Minus) := by
      simp [previousTok]
    have hp4 : previousTok [Token.NumberF64 a, .MathOp .Minus, .NumberF64 b,
        .MathOp .Minus, .NumberF64 c, .Semicolon] 4 = .ok (.MathOp .Minus) := by
      simp [previousTok]
    -- `b - c`, the recursive right operand of the outer `-`
    have hop6 : comparison_op (f + 6) [Token.NumberF64 a, .MathOp .Minus, .NumberF64 b,
        .MathOp .Minus, .NumberF64 c, .Semicolon] 4
        (TypedExpr.new_var (.NumberF64 b)) .Minus
        = .ok (TypedExpr.new_var (.MathOp (TypedExpr.new_var (.NumberF64 b)) .Minus
            (TypedExpr.new_var (.NumberF64 c))), 5) := by
      have hstop : comparison_loop (f + 5) [Token.NumberF64 a, .MathOp .Minus, .NumberF64 b,
          .MathOp .Minus, .NumberF64 c, .Semicolon] 5
          (TypedExpr.new_var (.MathOp (TypedExpr.new_var (.NumberF64 b)) .Minus
            (TypedExpr.new_var (.NumberF64 c))))
          = .ok (TypedExpr.new_var (.MathOp (TypedExpr.new_var (.NumberF64 b)) .Minus
              (TypedExpr.new_var (.NumberF64 c))), 5) :=
        comparison_loop_stop h5 (by simp [Token.ttype]) (by simp [Token.ttype])
      simp [comparison_op, expr_new_var, hcmp4, hstop]
    have hcmp2 : comparison (f + 8) [Token.NumberF64 a, .MathOp .Minus, .NumberF64 b,
        .MathOp .Minus, .NumberF64 c, .Semicolon] 2
        = .ok (TypedExpr.new_var (.MathOp (TypedExpr.new_var (.NumberF64 b)) .Minus
            (TypedExpr.new_var (.NumberF64 c))), 5) := by
      simp [comparison, ht2, comparison_loop, hm3, hp4, hop6]
    have hop9 : comparison_op (f + 9) [Token.NumberF64 a, .MathOp .Minus, .NumberF64 b,
        .MathOp .Minus, .NumberF64 c, .Semicolon] 2
        (TypedExpr.new_var (.NumberF64 a)) .Minus
        = .ok (TypedExpr.new_var (.MathOp (TypedExpr.new_var (.NumberF64 a)) .Minus
            (TypedExpr.new_var (.MathOp (TypedExpr.new_var (.NumberF64 b)) .Minus
              (TypedExpr.new_var (.NumberF64 c))))), 5) := by
      have hstop : comparison_loop (f + 8) [Token.NumberF64 a, .MathOp .Minus, .NumberF64 b,
          .MathOp .Minus, .NumberF64 c, .Semicolon] 5
          (TypedExpr.new_var (.MathOp (TypedExpr.new_var (.NumberF64 a)) .Minus
            (TypedExpr.new_var (.MathOp (TypedExpr.new_var (.NumberF64 b)) .Minus
              (TypedExpr.new_var (.NumberF64 c))))))
          = .ok (TypedExpr.new_var (.MathOp (TypedExpr.new_var (.NumberF64 a)) .Minus
              (TypedExpr.new_var (.MathOp (TypedExpr.new_var (.NumberF64 b)) .Minus
                (TypedExpr.new_var (.NumberF64 c))))), 5) :=
        comparison_loop_stop h5 (by simp [Token.ttype]) (by simp [Token.ttype])
      simp [comparison_op, expr_new_var, hcmp2, hstop]
    simp [comparison, ht0, comparison_loop, hm1, hp2, hop9]
  · intro f a b c
    have h1 : [Token.NumberF64 a, .MathOp .Star, .NumberF64 b, .MathOp .Star,
        .NumberF64 c, .Semicolon][1]? = some (.MathOp .Star) := rfl
    have h3 : [Token.NumberF64 a, .MathOp .Star, .NumberF64 b, .MathOp .Star,
        .NumberF64 c, .Semicolon][3]? = some (.MathOp .Star) := rfl
    have h5 : [Token.NumberF64 a, .MathOp .Star, .NumberF64 b, .MathOp .Star,
        .NumberF64 c, .Semicolon][5]? = some .Semicolon := rfl
    have he0 : exp (f + 10) [Token.NumberF64 a, .MathOp .Star, .NumberF64 b,
        .MathOp .Star, .NumberF64 c, .Semicolon] 0
        = .ok (TypedExpr.new_var (.NumberF64 a), 1) :=
      exp_of (column_num rfl) h1 (by simp [Token.ttype])
    have he2 : exp (f + 8) [Token.NumberF64 a, .MathOp .Star, .NumberF64 b,
        .MathOp .Star, .NumberF64 c, .Semicolon] 2
        = .ok (TypedExpr.new_var (.NumberF64 b), 3) :=
      exp_of (column_num rfl) h3 (by simp [Token.ttype])
    have he4 : exp (f + 6) [Token.NumberF64 a, .MathOp .Star, .NumberF64 b,
        .MathOp .Star, .NumberF64 c, .Semicolon] 4
        = .ok (TypedExpr.new_var (.NumberF64 c), 5) :=
      exp_of (column_num rfl) h5 (by simp [Token.ttype])
    have hm1 : matches' [.Star, .Slash, .Modulo] [Token.NumberF64 a, .MathOp .Star,
        .NumberF64 b, .MathOp .Star, .NumberF64 c, .Semicolon] 1 = .ok (true, 2) :=
      matches_yes h1 (by simp [Token.ttype]) (by simp [Token.ttype])
    have hm3 : matches' [.Star, .Slash, .Modulo] [Token.NumberF64 a, .MathOp .Star,
        .NumberF64 b, .MathOp .Star, .NumberF64 c, .Semicolon] 3 = .ok (true, 4) :=
      matches_yes h3 (by simp [Token.ttype]) (by simp [Token.ttype])
    have hp2 : previousTok [Token.NumberF64 a, .MathOp .Star, .NumberF64 b,
        .MathOp .Star, .NumberF64 c, .Semicolon] 2 = .ok (.MathOp .Star) := by
      simp [previousTok]
    have hp4 : previousTok [Token.NumberF64 a, .MathOp .Star, .NumberF64 b,
        .MathOp .Star, .NumberF64 c, .Semicolon] 4 = .ok (.MathOp .Star) := by
      simp [previousTok]
    have htr7 : term_rhs (f + 7) [Token.NumberF64 a, .MathOp .Star, .NumberF64 b,
        .MathOp .Star, .NumberF64 c, .Semicolon] 4
        (TypedExpr.new_var (.MathOp (TypedExpr.new_var (.NumberF64 a)) .Star
          (TypedExpr.new_var (.NumberF64 b)))) .Star
        = .ok (TypedExpr.new_var (.MathOp
            (TypedExpr.new_var (.MathOp (TypedExpr.new_var (.NumberF64 a)) .Star
              (TypedExpr.new_var (.NumberF64 b)))) .Star
            (TypedExpr.new_var (.NumberF64 c))), 5) := by
      have hstop : term_loop (f + 6) [Token.NumberF64 a, .MathOp .Star, .NumberF64 b,
          .MathOp .Star, .NumberF64 c, .Semicolon] 5
          (TypedExpr.new_var (.MathOp
            (TypedExpr.new_var (.MathOp (TypedExpr.new_var (.NumberF64 a)) .Star
              (TypedExpr.new_var (.NumberF64 b)))) .Star
            (TypedExpr.new_var (.NumberF64 c))))
          = .ok (TypedExpr.new_var (.MathOp
              (TypedExpr.new_var (.MathOp (TypedExpr.new_var (.NumberF64 a)) .Star
                (TypedExpr.new_var (.NumberF64 b)))) .Star
              (TypedExpr.new_var (.NumberF64 c))), 5) :=
        term_loop_stop h5 (by simp [Token.ttype]) (by simp [Token.ttype])
          (by simp [Token.ttype])
      simp [term_rhs, he4, hstop]
    have hloop8 : term_loop (f + 8) [Token.NumberF64 a, .MathOp .Star, .NumberF64 b,
        .MathOp .Star, .NumberF64 c, .Semicolon] 3
        (TypedExpr.new_var (.MathOp (TypedExpr.new_var (.NumberF64 a)) .Star
          (TypedExpr.new_var (.NumberF64 b))))
        = .ok (TypedExpr.new_var (.MathOp
            (TypedExpr.new_var (.MathOp (TypedExpr.new_var (.NumberF64 a)) .Star
              (TypedExpr.new_var (.NumberF64 b)))) .Star
            (TypedExpr.new_var (.NumberF64 c))), 5) := by
      simp [term_loop, hm3, hp4, htr7]
    have htr9 : term_rhs (f + 9) [Token.NumberF64 a, .MathOp .Star, .NumberF64 b,
        .MathOp .Star, .NumberF64 c, .Semicolon] 2
        (TypedExpr.new_var (.NumberF64 a)) .Star
        = .ok (TypedExpr.new_var (.MathOp
            (TypedExpr.new_var (.MathOp (TypedExpr.new_var (.NumberF64 a)) .Star
              (TypedExpr.new_var (.NumberF64 b)))) .Star
            (TypedExpr.new_var (.NumberF64 c))), 5) := by
      simp [term_rhs, he2, hloop8]
    have hloop10 : term_loop (f + 10) [Token.NumberF64 a, .MathOp .Star, .NumberF64 b,
        .MathOp .Star, .NumberF64 c, .Semicolon] 1
        (TypedExpr.new_var (.NumberF64 a))
        = .ok (TypedExpr.new_var (.MathOp
            (TypedExpr.new_var (.MathOp (TypedExpr.new_var (.NumberF64 a)) .Star
              (TypedExpr.new_var (.NumberF64 b)))) .Star
            (TypedExpr.new_var (.NumberF64 c))), 5) := by
      simp [term_loop, hm1, hp2, htr9]
    simp [term, he0, hloop10]


/-- C2: the string-concatenation level — `a < b c` parses to
`Less(a, Concat(b,c))` and `a b < c` to `Less(Concat(a,b), c)` (the level
sits between comparison and additive precedence); three juxtaposed
operands collapse into one flat three-element `Concatenation`; and a
single operand passes through unchanged whenever the next token is the
end-of-stream or belongs to the fixed stop-set `not_these`. -/
theorem claim_C2_string_concat :
    (expression 30 [.Ident "a", .BinOp .Less, .Ident "b", .Ident "c", .EOF] 0
      = .ok (TypedExpr.new_var (.BinOp (TypedExpr.new_var (.Variable "a")) .Less
          (TypedExpr.new_var (.Concatenation [TypedExpr.new_var (.Variable "b"),
            TypedExpr.new_var (.Variable "c")]))), 4))
  ∧ (expression 30 [.Ident "a", .Ident "b", .BinOp .Less, .Ident "c", .EOF] 0
      = .ok (TypedExpr.new_var (.BinOp
          (TypedExpr.new_var (.Concatenation [TypedExpr.new_var (.Variable "a"),
            TypedExpr.new_var (.Variable "b")])) .Less
          (TypedExpr.new_var (.Variable "c"))), 4))
  ∧ (expression 30 [.Ident "a", .Ident "b", .Ident "c", .EOF] 0
      = .ok (TypedExpr.new_var (.Concatenation [TypedExpr.new_var (.Variable "a"),
          TypedExpr.new_var (.Variable "b"), TypedExpr.new_var (.Variable "c")]), 3))
  ∧ (∀ (f : Nat) (ts : List Token) (pos p : Nat) (e : TypedExpr) (t : Token),
      comparison f ts pos = .ok (e, p) → ts[p]? = some t →
      (t.ttype = .EOF ∨ t.ttype ∈ not_these) →
      string_concat (f + 1) ts pos = .ok (e, p)) := by
  refine ⟨rfl, rfl, rfl, ?_⟩
  intro f ts pos p e t hsub h hstop
  exact string_concat_of hsub h hstop

/-- Witness for C2: a single operand (`x`) followed by a stop-set token
(`;`) passes through the concatenation level unchanged. -/
theorem claim_C2_witness :
    string_concat 11 [.Ident "x", .Semicolon] 0
      = .ok (TypedExpr.new_var (.Variable "x"), 1) :=
  claim_C2_string_concat.2.2.2 10 [.Ident "x", .Semicolon] 0 1
    (TypedExpr.new_var (.Variable "x")) .Semicolon rfl rfl
    (Or.inr (by simp [Token.ttype, not_these]))

/-- C8: at the assignment level, a bare-variable left-hand side followed by
a compound-assignment token bundling `op` produces
`Assign(var, MathOp(Variable(var), op, rhs))` with the right-hand side
parsed at the assignment level; and a left-hand side that is not a bare
variable reference is returned unchanged, never rewritten. -/
theorem claim_C8_compound_assign :
    (∀ (f : Nat) (ts : List Token) (pos : Nat) (ty : AwkT) (v : String) (p : Nat)
        (op : MathOp) (rhs : TypedExpr) (p2 : Nat),
      logical_or f ts pos = .ok (.mk ty (.Variable v), p) →
      ts[p]? = some (.InplaceEq op) →
      assignment f ts (p + 1) = .ok (rhs, p2) →
      assignment (f + 1) ts pos = .ok
        (TypedExpr.new_var (.Assign v (TypedExpr.new_var
          (.MathOp (TypedExpr.new_var (.Variable v)) op rhs))), p2))
  ∧ (∀ (f : Nat) (ts : List Token) (pos : Nat) (e : TypedExpr) (p : Nat),
      logical_or f ts pos = .ok (e, p) → (∀ v, e.expr ≠ .Variable v) →
      assignment (f + 1) ts pos = .ok (e, p)) := by
  constructor
  · intro f ts pos ty v p op rhs p2 h hip hrhs
    have hm1 : matches' [.Eq] ts p = .ok (false, p) :=
      matches_no hip (by simp [Token.ttype])
    have hm2 : matches' [.InplaceAssign] ts p = .ok (true, p + 1) :=
      matches_yes hip (by simp [Token.ttype]) (by simp [Token.ttype])
    have hprev : previousTok ts (p + 1) = .ok (.InplaceEq op) := by
      simp [previousTok, hip]
    simp [assignment, h, TypedExpr.expr, hm1, hm2, hprev, hrhs]
  · intro f ts pos e p h hv
    exact assignment_nonvar h hv

/-- Witness for C8: `x += 2` rewrites to `x = x + 2`, and a numeric
left-hand side passes through the assignment level unchanged. -/
theorem claim_C8_witness :
    (assignment 13 [.Ident "x", .InplaceEq .Plus, .NumberF64 2, .EOF] 0
      = .ok (TypedExpr.new_var (.Assign "x" (TypedExpr.new_var
          (.MathOp (TypedExpr.new_var (.Variable "x")) .Plus
            (TypedExpr.new_var (.NumberF64 2))))), 3))
    ∧ (assignment 13 [.NumberF64 7, .EOF] 0
      = .ok (TypedExpr.new_var (.NumberF64 7), 1)) :=
  ⟨claim_C8_compound_assign.1 12 [.Ident "x", .InplaceEq .Plus, .NumberF64 2, .EOF]
      0 .Variable "x" 1 .Plus (TypedExpr.new_var (.NumberF64 2)) 3 rfl rfl rfl,
   claim_C8_compound_assign.2 12 [.NumberF64 7, .EOF] 0
      (TypedExpr.new_var (.NumberF64 7)) 1 rfl
      (by simp [TypedExpr.new_var, TypedExpr.expr])⟩

/-- C7: a top-level unit that is a bare pattern expression not followed by
`{` becomes a `PatternAction` with that pattern and the implicit
whole-record print `Print(Column(0))` as action; a bare braced block
becomes a `PatternAction` with no pattern and the block as action. -/
theorem claim_C7_pattern_action :
    (∀ (f : Nat) (ts : List Token) (pos : Nat) (t0 : Token) (test : TypedExpr) (p : Nat),
      ts[pos]? = some t0 → t0.ttype ≠ .LeftBrace → t0.ttype ≠ .Begin → t0.ttype ≠ .End →
      expression f ts pos = .ok (test, p) →
      (∀ t1, ts[p]? = some t1 → t1.ttype ≠ .LeftBrace) →
      pattern_action (f + 1) ts pos
        = .ok (.Normal (PatternAction.new_pattern_only test), p))
  ∧ (PatternAction.new_pattern_only = fun test =>
      PatternAction.new (some test) (Stmt.Print (TypedExpr.new_str
        (.Column (TypedExpr.new_num (.NumberF64 0))))))
  ∧ (∀ (f : Nat) (ts : List Token) (pos : Nat) (body : Stmt) (p : Nat),
      ts[pos]? = some .LeftBrace →
      stmts f ts (pos + 1) = .ok (body, p) →
      ts[p]? = some .RightBrace →
      pattern_action (f + 1) ts pos
        = .ok (.Normal (PatternAction.new_action_only body), p + 1)) := by
  refine ⟨?_, rfl, ?_⟩
  · intro f ts pos t0 test p h0 hb hbg hen hexpr hnb
    have hm1 : matches' [.LeftBrace] ts pos = .ok (false, pos) :=
      matches_no h0 (by simp [hb])
    have hm2 : matches' [.Begin] ts pos = .ok (false, pos) :=
      matches_no h0 (by simp [hbg])
    have hm3 : matches' [.End] ts pos = .ok (false, pos) :=
      matches_no h0 (by simp [hen])
    have hm4 : matches' [.LeftBrace] ts p = .ok (false, p) := by
      match hq : ts[p]? with
      | none => exact matches_none hq
      | some t1 => exact matches_no hq (by simp [hnb t1 hq])
    simp [pattern_action, hm1, hm2, hm3, hexpr, hm4]
  · intro f ts pos body p h0 hstmts hrb
    have hm : matches' [.LeftBrace] ts pos = .ok (true, pos + 1) :=
      matches_yes h0 (by simp [Token.ttype]) (by simp [Token.ttype])
    have hc : consume .RightBrace "Expected '\x7d' after action block" ts p
        = .ok (.RightBrace, p + 1) :=
      consume_some hrb (by simp [Token.ttype]) (by simp [Token.ttype])
    simp [pattern_action, hm, hstmts, hc]

/-- Witness for C7: the single-token pattern `test` becomes a rule printing
the whole record, and `{ print 1 }` becomes a pattern-less rule. -/
theorem claim_C7_witness :
    (pattern_action 13 [.Ident "test", .EOF] 0
      = .ok (.Normal (PatternAction.new_pattern_only
          (TypedExpr.new_var (.Variable "test"))), 1))
    ∧ (pattern_action 20 [.LeftBrace, .Print, .NumberF64 1, .RightBrace, .EOF] 0
      = .ok (.Normal (PatternAction.new_action_only
          (Stmt.Print (TypedExpr.new_var (.NumberF64 1)))), 4)) :=
  ⟨claim_C7_pattern_action.1 12 [.Ident "test", .EOF] 0 (.Ident "test")
      (TypedExpr.new_var (.Variable "test")) 1 rfl
      (by simp [Token.ttype]) (by simp [Token.ttype]) (by simp [Token.ttype]) rfl
      (fun t1 h => by
        simp only [List.getElem?_cons_succ, List.getElem?_cons_zero,
          Option.some.injEq] at h
        rw [← h]
        simp [Token.ttype]),
   claim_C7_pattern_action.2.2 19 [.LeftBrace, .Print, .NumberF64 1, .RightBrace, .EOF]
      0 (Stmt.Print (TypedExpr.new_var (.NumberF64 1))) 3 rfl rfl rfl⟩


/-- C6: the `stmts` sequencer — whatever list the collection loop
produces, a one-element list is returned unwrapped and any other length
becomes a `Group` of exactly those statements in order; hence a block of
one statement parses to exactly that statement's own parse, and a block
at a closing brace parses to `Group []`. -/
theorem claim_C6_stmts_unwrap :
    (∀ (f : Nat) (ts : List Token) (pos : Nat) (l : List Stmt) (p : Nat),
      stmts_loop f ts pos [] = .ok (l, p) →
      stmts (f + 1) ts pos = .ok (match l with | [s] => s | _ => .Group l, p))
  ∧ (∀ (f : Nat) (ts : List Token) (pos : Nat) (t : Token) (s : Stmt) (p : Nat),
      ts[pos]? = some t → t.ttype ≠ .RightBrace →
      stmt_and_optional_semicolon f ts pos = .ok (s, p) →
      ts[p]? = some .RightBrace →
      stmts (f + 2) ts pos = .ok (s, p))
  ∧ (∀ (f : Nat) (ts : List Token) (pos : Nat),
      ts[pos]? = some .RightBrace →
      stmts (f + 2) ts pos = .ok (.Group [], pos)) := by
  refine ⟨?_, ?_, ?_⟩
  · intro f ts pos l p h
    rcases l with _ | ⟨s, _ | ⟨s2, rest⟩⟩ <;> simp [stmts, h]
  · intro f ts pos t s p h0 hne hs hrb
    match f, hs with
    | g + 1, hs =>
      have hpk : peek ts pos = .ok t := peek_some h0
      have hpk2 : peek ts p = .ok Token.RightBrace := peek_some hrb
      simp [stmts, stmts_loop, hpk, hne, hs, hpk2, ttype_rbrace]
  · intro f ts pos h
    have hpk : peek ts pos = .ok Token.RightBrace := peek_some h
    simp [stmts, stmts_loop, hpk, ttype_rbrace]

/-- Witness for C6: a two-statement block groups both statements in order;
a one-statement block is the bare statement; an empty block is `Group []`. -/
theorem claim_C6_witness :
    (stmts 21 [.Print, .NumberF64 1, .Semicolon, .Print, .NumberF64 2, .RightBrace] 0
      = .ok (.Group [.Print (TypedExpr.new_var (.NumberF64 1)),
          .Print (TypedExpr.new_var (.NumberF64 2))], 5))
    ∧ (stmts 17 [.Print, .NumberF64 1, .RightBrace, .EOF] 0
      = .ok (.Print (TypedExpr.new_var (.NumberF64 1)), 2))
    ∧ (stmts 7 [.RightBrace] 0 = .ok (.Group [], 0)) :=
  ⟨claim_C6_stmts_unwrap.1 20
      [.Print, .NumberF64 1, .Semicolon, .Print, .NumberF64 2, .RightBrace] 0
      [.Print (TypedExpr.new_var (.NumberF64 1)),
       .Print (TypedExpr.new_var (.NumberF64 2))] 5 rfl,
   claim_C6_stmts_unwrap.2.1 15 [.Print, .NumberF64 1, .RightBrace, .EOF] 0
      .Print (.Print (TypedExpr.new_var (.NumberF64 1))) 2 rfl
      (by simp [Token.ttype]) rfl rfl,
   claim_C6_stmts_unwrap.2.2 5 [.RightBrace] 0 rfl⟩

/-- C3: every well-formed `for ( init ; test ; incr ) { body }` statement
parses to the desugared tree `Group [init, While(test, Group [body, incr])]`
with `init` and `incr` parsed as statements, `test` as an expression and
`body` as a statement block — no dedicated for-loop node. -/
theorem claim_C3_for_desugar :
    ∀ (f : Nat) (ts : List Token) (pos : Nat) (init : Stmt) (test : TypedExpr)
      (incr body : Stmt) (p1 p2 p3 p4 : Nat),
    ts[pos]? = some .For →
    ts[pos + 1]? = some .LeftParen →
    stmt f ts (pos + 2) = .ok (init, p1) →
    ts[p1]? = some .Semicolon →
    expression f ts (p1 + 1) = .ok (test, p2) →
    ts[p2]? = some .Semicolon →
    stmt f ts (p2 + 1) = .ok (incr, p3) →
    ts[p3]? = some .RightParen →
    ts[p3 + 1]? = some .LeftBrace →
    stmts f ts (p3 + 2) = .ok (body, p4) →
    ts[p4]? = some .RightBrace →
    stmt (f + 1) ts pos = .ok (.Group [init, .While test (.Group [body, incr])], p4 + 1) := by
  intro f ts pos init test incr body p1 p2 p3 p4
  intro h0 hlp hinit hs1 htest hs2 hincr hrp hlb hbody hrb
  have hmP : matches' [.Print] ts pos = .ok (false, pos) :=
    matches_no h0 (by simp [Token.ttype])
  have hmF : matches' [.For] ts pos = .ok (true, pos + 1) :=
    matches_yes h0 (by simp [Token.ttype]) (by simp [Token.ttype])
  have hc1 : consume .LeftParen "Expected a '(' after the for keyword" ts (pos + 1)
      = .ok (.LeftParen, pos + 2) :=
    consume_some hlp (by simp [Token.ttype]) (by simp [Token.ttype])
  have hc2 : consume .Semicolon "Expected a ';' after for loop init statement" ts p1
      = .ok (.Semicolon, p1 + 1) :=
    consume_some hs1 (by simp [Token.ttype]) (by simp [Token.ttype])
  have hc3 : consume .Semicolon "Expected a ';' after for loop test statement" ts p2
      = .ok (.Semicolon, p2 + 1) :=
    consume_some hs2 (by simp [Token.ttype]) (by simp [Token.ttype])
  have hc4 : consume .RightParen "Expected a ')' to end for loop" ts p3
      = .ok (.RightParen, p3 + 1) :=
    consume_some hrp (by simp [Token.ttype]) (by simp [Token.ttype])
  have hc5 : consume .LeftBrace "Expected a '\x7b' to begin for loop body" ts (p3 + 1)
      = .ok (.LeftBrace, p3 + 2) :=
    consume_some hlb (by simp [Token.ttype]) (by simp [Token.ttype])
  have hc6 : consume .RightBrace "Expected a '\x7d' after for loop body" ts p4
      = .ok (.RightBrace, p4 + 1) :=
    consume_some hrb (by simp [Token.ttype]) (by simp [Token.ttype])
  simp [stmt, hmP, hmF, hc1, hinit, hc2, htest, hc3, hincr, hc4, hc5, hbody, hc6]

/-- Witness for C3: `for (a = 0; a < 1000; a = a + 1) { print a; }`
desugars to the documented `Group`/`While` tree. -/
theorem claim_C3_witness :
    stmt 21 [.For, .LeftParen, .Ident "a", .Eq, .NumberF64 0, .Semicolon,
      .Ident "a", .BinOp .Less, .NumberF64 1000, .Semicolon,
      .Ident "a", .Eq, .Ident "a", .MathOp .Plus, .NumberF64 1, .RightParen,
      .LeftBrace, .Print, .Ident "a", .Semicolon, .RightBrace, .EOF] 0
    = .ok (.Group [
        .Expr (TypedExpr.new_var (.Assign "a" (TypedExpr.new_var (.NumberF64 0)))),
        .While (TypedExpr.new_var (.BinOp (TypedExpr.new_var (.Variable "a")) .Less
            (TypedExpr.new_var (.NumberF64 1000))))
          (.Group [
            .Print (TypedExpr.new_var (.Variable "a")),
            .Expr (TypedExpr.new_var (.Assign "a" (TypedExpr.new_var
              (.MathOp (TypedExpr.new_var (.Variable "a")) .Plus
                (TypedExpr.new_var (.NumberF64 1))))))])], 21) :=
  claim_C3_for_desugar 20 [.For, .LeftParen, .Ident "a", .Eq, .NumberF64 0, .Semicolon,
      .Ident "a", .BinOp .Less, .NumberF64 1000, .Semicolon,
      .Ident "a", .Eq, .Ident "a", .MathOp .Plus, .NumberF64 1, .RightParen,
      .LeftBrace, .Print, .Ident "a", .Semicolon, .RightBrace, .EOF] 0
    _ _ _ _ 5 9 15 20 rfl rfl rfl rfl rfl rfl rfl rfl rfl rfl rfl


/-- C1: the post-increment/decrement rewrite — when the additive level's
left operand is a bare variable reference and the `+` (resp. `-`)
operator token is immediately followed by another `+` (resp. `-`) token,
both tokens are consumed and the result is the three-node rewrite
`((var = var + 1) - 1)` (resp. `((var = var - 1) + 1)`), with no
dedicated increment node. -/
theorem claim_C1_incr_decr_rewrite :
    (∀ (f : Nat) (ts : List Token) (pos : Nat) (e : TypedExpr) (v : String) (p : Nat),
      term (f + 1) ts pos = .ok (e, p) → e.expr = .Variable v →
      ts[p]? = some (.MathOp .Plus) → ts[p + 1]? = some (.MathOp .Plus) →
      (∀ u, ts[p + 2]? = some u → u.ttype ≠ .Plus ∧ u.ttype ≠ .Minus) →
      comparison (f + 2) ts pos = .ok (TypedExpr.new_var (.MathOp
        (TypedExpr.new_var (.Assign v (TypedExpr.new_var
          (.MathOp e .Plus (TypedExpr.new_var (.NumberF64 1))))))
        .Minus (TypedExpr.new_var (.NumberF64 1))), p + 2))
  ∧ (∀ (f : Nat) (ts : List Token) (pos : Nat) (e : TypedExpr) (v : String) (p : Nat),
      term (f + 1) ts pos = .ok (e, p) → e.expr = .Variable v →
      ts[p]? = some (.MathOp .Minus) → ts[p + 1]? = some (.MathOp .Minus) →
      (∀ u, ts[p + 2]? = some u → u.ttype ≠ .Plus ∧ u.ttype ≠ .Minus) →
      comparison (f + 2) ts pos = .ok (TypedExpr.new_var (.MathOp
        (TypedExpr.new_var (.Assign v (TypedExpr.new_var
          (.MathOp e .Minus (TypedExpr.new_var (.NumberF64 1))))))
        .Plus (TypedExpr.new_var (.NumberF64 1))), p + 2)) := by
  constructor
  · intro f ts pos e v p hterm he hp hp2 hstop
    match f, hterm with
    | 0, hterm => simp [term, exp] at hterm
    | 1, hterm => simp [term, exp, column] at hterm
    | g + 2, hterm =>
      have hm : matches' [.Plus, .Minus] ts p = .ok (true, p + 1) :=
        matches_yes hp (by simp [Token.ttype]) (by simp [Token.ttype])
      have hprev : previousTok ts (p + 1) = .ok (.MathOp .Plus) := by
        simp [previousTok, hp]
      have hpk : peek ts (p + 1) = .ok (.MathOp .Plus) := peek_some hp2
      have hadv : advance ts (p + 1) = .ok (.MathOp .Plus, p + 2) :=
        advance_some hp2 (by simp [Token.ttype])
      have hm2 : matches' [.Plus, .Minus] ts (p + 2) = .ok (false, p + 2) := by
        match hq : ts[p + 2]? with
        | none => exact matches_none hq
        | some u => exact matches_no hq (by simp [(hstop u hq).1, (hstop u hq).2])
      simp [comparison, hterm, comparison_loop, hm, hm2, hprev, comparison_op, he,
        hpk, hadv, Token.ttype]
  · intro f ts pos e v p hterm he hp hp2 hstop
    match f, hterm with
    | 0, hterm => simp [term, exp] at hterm
    | 1, hterm => simp [term, exp, column] at hterm
    | g + 2, hterm =>
      have hm : matches' [.Plus, .Minus] ts p = .ok (true, p + 1) :=
        matches_yes hp (by simp [Token.ttype]) (by simp [Token.ttype])
      have hprev : previousTok ts (p + 1) = .ok (.MathOp .Minus) := by
        simp [previousTok, hp]
      have hpk : peek ts (p + 1) = .ok (.MathOp .Minus) := peek_some hp2
      have hadv : advance ts (p + 1) = .ok (.MathOp .Minus, p + 2) :=
        advance_some hp2 (by simp [Token.ttype])
      have hm2 : matches' [.Plus, .Minus] ts (p + 2) = .ok (false, p + 2) := by
        match hq : ts[p + 2]? with
        | none => exact matches_none hq
        | some u => exact matches_no hq (by simp [(hstop u hq).1, (hstop u hq).2])
      simp [comparison, hterm, comparison_loop, hm, hm2, hprev, comparison_op, he,
        hpk, hadv, Token.ttype]

/-- Witness for C1: `x++` and `x--` followed by `;`. -/
theorem claim_C1_witness :
    (comparison 14 [.Ident "x", .MathOp .Plus, .MathOp .Plus, .Semicolon] 0
      = .ok (TypedExpr.new_var (.MathOp
          (TypedExpr.new_var (.Assign "x" (TypedExpr.new_var
            (.MathOp (TypedExpr.new_var (.Variable "x")) .Plus
              (TypedExpr.new_var (.NumberF64 1))))))
          .Minus (TypedExpr.new_var (.NumberF64 1))), 3))
    ∧ (comparison 14 [.Ident "x", .MathOp .Minus, .MathOp .Minus, .Semicolon] 0
      = .ok (TypedExpr.new_var (.MathOp
          (TypedExpr.new_var (.Assign "x" (TypedExpr.new_var
            (.MathOp (TypedExpr.new_var (.Variable "x")) .Minus
              (TypedExpr.new_var (.NumberF64 1))))))
          .Plus (TypedExpr.new_var (.NumberF64 1))), 3)) :=
  ⟨claim_C1_incr_decr_rewrite.1 12 [.Ident "x", .MathOp .Plus, .MathOp .Plus, .Semicolon]
      0 (TypedExpr.new_var (.Variable "x")) "x" 1 rfl rfl rfl rfl
      (fun u h => by
        simp only [List.getElem?_cons_succ, List.getElem?_cons_zero,
          Option.some.injEq] at h
        rw [← h]
        constructor <;> simp [Token.ttype]),
   claim_C1_incr_decr_rewrite.2 12 [.Ident "x", .MathOp .Minus, .MathOp .Minus, .Semicolon]
      0 (TypedExpr.new_var (.Variable "x")) "x" 1 rfl rfl rfl rfl
      (fun u h => by
        simp only [List.getElem?_cons_succ, List.getElem?_cons_zero,
          Option.some.injEq] at h
        rw [← h]
        constructor <;> simp [Token.ttype])⟩

/-- C9: the two assignment-recognition paths agree — for tokens starting
`ident =`, the statement grammar's lookahead path and the expression
grammar's assignment level both produce `Assign(name, rhs)` with the same
right-hand side, the statement path wrapping it in `Stmt.Expr`. -/
theorem claim_C9_assignment_paths :
    ∀ (f : Nat) (ts : List Token) (pos : Nat) (v : String) (rhs : TypedExpr) (p : Nat),
    9 ≤ f →
    ts[pos]? = some (.Ident v) → ts[pos + 1]? = some .Eq →
    assignment f ts (pos + 2) = .ok (rhs, p) →
    stmt (f + 2) ts pos = .ok (.Expr (TypedExpr.new_var (.Assign v rhs)), p)
    ∧ expression (f + 2) ts pos = .ok (TypedExpr.new_var (.Assign v rhs), p) := by
  intro f ts pos v rhs p hf h1 h2 hrhs
  obtain ⟨g, rfl⟩ : ∃ g, f = g + 9 := ⟨f - 9, by omega⟩
  constructor
  · have hmP : matches' [.Print] ts pos = .ok (false, pos) :=
      matches_no h1 (by simp [Token.ttype])
    have hmF : matches' [.For] ts pos = .ok (false, pos) :=
      matches_no h1 (by simp [Token.ttype])
    have hpn : peek_next ts pos = .ok .Eq := by simp [peek_next, h2]
    have hci : consume .Ident "Expected identifier before '='" ts pos
        = .ok (.Ident v, pos + 1) :=
      consume_some h1 (by simp [Token.ttype]) (by simp [Token.ttype])
    have hce : consume .Eq "Expected '=' after identifier" ts (pos + 1)
        = .ok (.Eq, pos + 2) :=
      consume_some h2 (by simp [Token.ttype]) (by simp [Token.ttype])
    have hexpr : expression (g + 10) ts (pos + 2) = .ok (rhs, p) := by
      simp [expression, hrhs]
    simp [stmt, hmP, hmF, hpn, hci, hce, hexpr, Token.ttype]
  · have hcol : column (g + 2) ts pos = .ok (TypedExpr.new_var (.Variable v), pos + 1) :=
      column_ident h1
    have hexp3 : exp (g + 3) ts pos = .ok (TypedExpr.new_var (.Variable v), pos + 1) :=
      exp_of hcol h2 (by simp [Token.ttype])
    have hterm4 : term (g + 4) ts pos = .ok (TypedExpr.new_var (.Variable v), pos + 1) :=
      term_of hexp3 h2 (by simp [Token.ttype]) (by simp [Token.ttype])
        (by simp [Token.ttype])
    have hcomp5 : comparison (g + 5) ts pos
        = .ok (TypedExpr.new_var (.Variable v), pos + 1) :=
      comparison_of hterm4 h2 (by simp [Token.ttype]) (by simp [Token.ttype])
    have hconc6 : string_concat (g + 6) ts pos
        = .ok (TypedExpr.new_var (.Variable v), pos + 1) :=
      string_concat_of hcomp5 h2 (Or.inr (by simp [Token.ttype, not_these]))
    have hcmp7 : compare (g + 7) ts pos
        = .ok (TypedExpr.new_var (.Variable v), pos + 1) :=
      compare_of hconc6 h2 (by simp [Token.ttype]) (by simp [Token.ttype])
        (by simp [Token.ttype]) (by simp [Token.ttype]) (by simp [Token.ttype])
        (by simp [Token.ttype])
    have hand8 : logical_and (g + 8) ts pos
        = .ok (TypedExpr.new_var (.Variable v), pos + 1) :=
      logical_and_of hcmp7 h2 (by simp [Token.ttype])
    have hor9 : logical_or (g + 9) ts pos
        = .ok (TypedExpr.new_var (.Variable v), pos + 1) :=
      logical_or_of hand8 h2 (by simp [Token.ttype])
    have hassign : assignment (g + 10) ts pos
        = .ok (TypedExpr.new_var (.Assign v rhs), p) :=
      assignment_var_eq hor9 h2 hrhs
    simp [expression, hassign]

/-- Witness for C9: `x = 5` through both paths. -/
theorem claim_C9_witness :
    stmt 14 [.Ident "x", .Eq, .NumberF64 5, .EOF] 0
      = .ok (.Expr (TypedExpr.new_var (.Assign "x" (TypedExpr.new_var (.NumberF64 5)))), 3)
    ∧ expression 14 [.Ident "x", .Eq, .NumberF64 5, .EOF] 0
      = .ok (TypedExpr.new_var (.Assign "x" (TypedExpr.new_var (.NumberF64 5))), 3) :=
  claim_C9_assignment_paths 12 [.Ident "x", .Eq, .NumberF64 5, .EOF] 0 "x"
    (TypedExpr.new_var (.NumberF64 5)) 3 (by omega) rfl rfl rfl

/-- Does a parse failure carry all three pieces of the documented
diagnostic (the human-readable expectation, the found token's kind and the
found token itself)?  Only the `consume` failure does. -/
def carries_expectation_kind_value : ParseErr → Bool
  | .consumeFail _ _ _ _ => true
  | _ => false

/-- C5 counterexample: on the malformed input `{ print` (then end of
stream), the parse aborts with the fixed diagnostic of
`Parser::primary` at end of stream, which carries neither the expected
construct's token kind nor the found token kind nor the found token
value — refuting the claim that every parse failure carries all three. -/
theorem claim_C5_counterexample :
    parse 20 [.LeftBrace, .Print, .EOF] = .error .primaryAtEnd
    ∧ carries_expectation_kind_value .primaryAtEnd = false :=
  ⟨rfl, rfl⟩

/-- C5 (amended): failures raised by `consume` carry the expectation
message, the expected kind, the found kind and the found token; reaching
end of stream where a primary was required aborts with the fixed
`primaryAtEnd` diagnostic instead; and a call to `parse` either yields a
complete `Program` or a single fatal error and no partial tree. -/
theorem claim_C5_diagnostics :
    (∀ (typ : TokenType) (msg : String) (ts : List Token) (pos : Nat) (t : Token),
      ts[pos]? = some t → t.ttype ≠ typ →
      consume typ msg ts pos = .error (.consumeFail msg typ t.ttype t)
      ∧ carries_expectation_kind_value (.consumeFail msg typ t.ttype t) = true)
  ∧ (∀ (f : Nat) (ts : List Token) (pos : Nat),
      ts[pos]? = some .EOF → primary (f + 1) ts pos = .error .primaryAtEnd)
  ∧ (∀ (fuel : Nat) (ts : List Token),
      (∃ pr, parse fuel ts = .ok pr) ∨ (∃ e, parse fuel ts = .error e)) := by
  refine ⟨?_, ?_, ?_⟩
  · intro typ msg ts pos t h hne
    exact ⟨consume_fail h hne, rfl⟩
  · intro f ts pos h
    simp [primary, is_at_end_true h rfl]
  · intro fuel ts
    match hq : parse fuel ts with
    | .ok pr => exact Or.inl ⟨pr, rfl⟩
    | .error e => exact Or.inr ⟨e, rfl⟩

/-- Witness for C5 (amended): a concrete `consume` failure carries all
three pieces, and `primary` at a concrete end of stream does not. -/
theorem claim_C5_witness :
    (consume .Semicolon "Expected a ';' after for loop init statement" [.Print] 0
      = .error (.consumeFail "Expected a ';' after for loop init statement"
          .Semicolon .Print .Print)
      ∧ carries_expectation_kind_value (.consumeFail
          "Expected a ';' after for loop init statement" .Semicolon .Print .Print) = true)
    ∧ primary 5 [.EOF] 0 = .error .primaryAtEnd :=
  ⟨claim_C5_diagnostics.1 .Semicolon "Expected a ';' after for loop init statement"
      [.Print] 0 .Print rfl (by simp [Token.ttype]),
   claim_C5_diagnostics.2.1 4 [.EOF] 0 rfl⟩

end Jawk
